import Mathlib

/-!
# FBuildApp/Main.cpp : the wrapper-process relay

A shallow embedding of `Code/Tools/FBuild/FBuildApp/Main.cpp`.

One OS process is modelled at a time.  Everything the process does to the
outside (named mutexes, the shared segment, child processes, the build engine,
sleeping, the stop flag) is recorded, in program order, in a trace of `Event`s.
Everything the outside answers is given by an `Env`: the result of the n-th
`TryLock` on each mutex, the value of the stop flag at the n-th check, whether
a spawn / map succeeds, what the build engine returns, and what the *other*
processes do to the shared segment before each operation of this process.

The polling loops of the source are unbounded; each is a recursive function on
a number of observed iterations (`fuel`).  A loop that is still polling when
the observation ends yields `Outcome.running`, together with the world reached.
-/

namespace FBuildApp

/-! ## Return codes (`enum ReturnCodes`, lines 26-36) -/

def FBUILD_OK : Int := 0
def FBUILD_BUILD_FAILED : Int := -1
def FBUILD_ERROR_LOADING_BFF : Int := -2
def FBUILD_BAD_ARGS : Int := -3
def FBUILD_ALREADY_RUNNING : Int := -4
def FBUILD_FAILED_TO_SPAWN_WRAPPER : Int := -5
def FBUILD_FAILED_TO_SPAWN_WRAPPER_FINAL : Int := -6
def FBUILD_WRAPPER_CRASHED : Int := -7

/-! ## Data -/

/-- The `FBuildOptions::WrapperMode` enumeration. -/
inductive WrapperMode
  | WRAPPER_MODE_NONE
  | WRAPPER_MODE_MAIN_PROCESS
  | WRAPPER_MODE_INTERMEDIATE_PROCESS
  | WRAPPER_MODE_FINAL_PROCESS
  deriving DecidableEq, Repr

/-- The result of `FBuildOptions::ProcessCommandLine`. -/
inductive OptionsResult
  | OPTIONS_OK
  | OPTIONS_OK_AND_QUIT
  | OPTIONS_ERROR
  deriving DecidableEq, Repr

/-- The fields and getters of `FBuildOptions` that `Main.cpp` reads, as they are
after `ProcessCommandLine` (whose code is not part of this file). -/
structure FBuildOptions where
  m_Args : String
  m_ProgramName : String
  m_WrapperMode : WrapperMode
  m_WaitMode : Bool
  m_DisplayTargetList : Bool
  m_DisplayDependencyDB : Bool
  m_CacheInfo : Bool
  m_CacheTrim : Bool
  m_Targets : List String
  GetWorkingDir : String
  GetMainProcessMutexName : String
  GetFinalProcessMutexName : String
  GetSharedMemoryName : String
  deriving DecidableEq, Repr

/-- The block passed between processes in wrapper mode (`struct SharedData`, lines 47-51). -/
structure SharedData where
  Started : Bool
  ReturnCode : Int
  deriving DecidableEq, Repr

/-- The two `SystemMutex` locals of `Main` (lines 106 and 110). -/
inductive SystemMutex
  | mainProcess
  | finalProcess
  deriving DecidableEq, Repr

/-- The texts `Main` prints with `OUTPUT` (lines 120, 124, 149). -/
inductive Message
  | alreadyRunning (workingDir : String)
  | waitingDueToWaitOption
  | waitingForAnother
  deriving DecidableEq, Repr

/-- One operation of the process on the outside world, with the answer it got. -/
inductive Event
  | ctrlCRegister
  | processCommandLine (r : OptionsResult)
  | setvbuf
  | mutexConstruct (m : SystemMutex) (name : String)
  | tryLock (m : SystemMutex) (r : Bool)
  | output (msg : Message)
  | sleep (ms : Nat)
  | getStopBuild (r : Bool)
  | smCreate (name : String) (ok : Bool)
  | smOpen (name : String) (ok : Bool)
  | memset
  | writeStarted (v : Bool)
  | writeReturnCode (v : Int)
  | readStarted (v : Bool)
  | readReturnCode (v : Int)
  | spawn (program args workingDir : String) (ok : Bool)
  | waitForExit (code : Int)
  | detach
  | fbuildInitialize (r : Bool)
  | displayTargetList
  | displayDependencyDB (targets : List String) (r : Bool)
  | cacheOutputInfo (r : Bool)
  | cacheTrim (r : Bool)
  | build (targets : List String) (r : Bool)
  | flogBuildTime
  | deregisterHandler
  deriving DecidableEq, Repr

/-- What the outside answers to the process. -/
structure Env where
  /-- the result of the n-th `TryLock` this process makes on the given mutex -/
  tryLock : SystemMutex → Nat → Bool
  /-- the value of `FBuild::GetStopBuild()` at the n-th check -/
  stopBuild : Nat → Bool
  /-- whether `Process::Spawn` succeeds -/
  spawnOk : Bool
  /-- the exit code `Process::WaitForExit` yields -/
  childExit : Int
  /-- whether `SharedMemory::Create` maps a block -/
  createOk : Bool
  /-- whether `SharedMemory::Open` maps a block -/
  openOk : Bool
  /-- the result of `FBuild::Initialize` -/
  initOk : Bool
  /-- the result of `FBuild::DisplayDependencyDB` -/
  dependencyDB : Bool
  /-- the result of `FBuild::CacheOutputInfo` -/
  cacheInfo : Bool
  /-- the result of `FBuild::CacheTrim` -/
  cacheTrim : Bool
  /-- the result of `FBuild::Build` -/
  build : Bool
  /-- what the other processes do to the shared block just before the
  operation this process makes at the given time (the number of operations it
  has made so far) -/
  others : Nat → SharedData → SharedData

/-- The state one process runs in. -/
structure World where
  /-- the operations made so far, oldest first -/
  trace : List Event
  /-- the contents of the named shared block -/
  mem : SharedData
  /-- whether `g_SharedMemory.GetPtr()` is non-null in this process -/
  mapped : Bool
  /-- how many `TryLock`s were made on `mainProcess` -/
  nTryMain : Nat
  /-- how many `TryLock`s were made on `finalProcess` -/
  nTryFinal : Nat
  /-- how many times the stop flag was checked -/
  nStop : Nat
  deriving DecidableEq, Repr

/-- How a function of the process ends. -/
inductive Outcome
  /-- it returned this code -/
  | exit (code : Int)
  /-- it wrote through a null pointer -/
  | crash
  /-- it was still polling when the observation ended -/
  | running
  deriving DecidableEq, Repr

/-! ## Primitive operations -/

/-- The shared block as this process finds it at its next operation. -/
def World.sync (env : Env) (w : World) : SharedData :=
  env.others w.trace.length w.mem

/-- An operation that neither reads nor writes the shared block. -/
def World.step (env : Env) (e : Event) (w : World) : World :=
  { w with trace := w.trace ++ [e], mem := w.sync env }

/-- The call `m.TryLock()`. -/
def SystemMutex.TryLock (env : Env) (m : SystemMutex) (w : World) : Bool × World :=
  match m with
  | .mainProcess =>
    let r := env.tryLock .mainProcess w.nTryMain
    (r, { w.step env (.tryLock .mainProcess r) with nTryMain := w.nTryMain + 1 })
  | .finalProcess =>
    let r := env.tryLock .finalProcess w.nTryFinal
    (r, { w.step env (.tryLock .finalProcess r) with nTryFinal := w.nTryFinal + 1 })

/-- The call `FBuild::GetStopBuild()`. -/
def GetStopBuild (env : Env) (w : World) : Bool × World :=
  let r := env.stopBuild w.nStop
  (r, { w.step env (.getStopBuild r) with nStop := w.nStop + 1 })

/-- The call `Thread::Sleep( ms )`. -/
def Sleep (env : Env) (ms : Nat) (w : World) : World :=
  w.step env (.sleep ms)

/-- The call `OUTPUT( ... )`. -/
def OUTPUT (env : Env) (msg : Message) (w : World) : World :=
  w.step env (.output msg)

/-- The call `g_SharedMemory.Create( name, sizeof( SharedData ) )`. -/
def SharedMemoryCreate (env : Env) (name : String) (w : World) : World :=
  { w.step env (.smCreate name env.createOk) with mapped := env.createOk }

/-- The call `g_SharedMemory.Open( name, sizeof( SharedData ) )`. -/
def SharedMemoryOpen (env : Env) (name : String) (w : World) : World :=
  { w.step env (.smOpen name env.openOk) with mapped := env.openOk }

/-- The call `memset( ptr, 0, sizeof( SharedData ) )` on a mapped block. -/
def memsetZero (env : Env) (w : World) : World :=
  { w.step env .memset with mem := { Started := false, ReturnCode := 0 } }

/-- The assignment `sharedData->Started = v`. -/
def writeStarted (env : Env) (v : Bool) (w : World) : World :=
  { w.step env (.writeStarted v) with mem := { w.sync env with Started := v } }

/-- The assignment `sharedData->ReturnCode = v`. -/
def writeReturnCode (env : Env) (v : Int) (w : World) : World :=
  { w.step env (.writeReturnCode v) with mem := { w.sync env with ReturnCode := v } }

/-- The read `sd->Started`. -/
def readStarted (env : Env) (w : World) : Bool × World :=
  ((w.sync env).Started, w.step env (.readStarted (w.sync env).Started))

/-- The read `sd->ReturnCode`. -/
def readReturnCode (env : Env) (w : World) : Int × World :=
  ((w.sync env).ReturnCode, w.step env (.readReturnCode (w.sync env).ReturnCode))

/-- The call `p.Spawn( program, args, workingDir, nullptr, true )`. -/
def ProcessSpawn (env : Env) (program args workingDir : String) (w : World) : Bool × World :=
  (env.spawnOk, w.step env (.spawn program args workingDir env.spawnOk))

/-- The call `p.WaitForExit()`. -/
def ProcessWaitForExit (env : Env) (w : World) : Int × World :=
  (env.childExit, w.step env (.waitForExit env.childExit))

/-- The call `p.Detach()`. -/
def ProcessDetach (env : Env) (w : World) : World :=
  w.step env .detach

/-! ## `WrapperIntermediateProcess` (lines 276-291) -/

/-- The function `WrapperIntermediateProcess`. -/
def WrapperIntermediateProcess (env : Env) (options : FBuildOptions) (w : World) :
    Outcome × World :=
  -- launch final process
  let argsCopy := options.m_Args ++ " -wrapperfinal"
  let (ok, w) := ProcessSpawn env options.m_ProgramName argsCopy options.GetWorkingDir w
  if !ok then
    (.exit FBUILD_FAILED_TO_SPAWN_WRAPPER_FINAL, w)
  else
    -- don't wait for the final process (the main process will do that)
    let w := ProcessDetach env w
    (.exit FBUILD_OK, w)

/-! ## `WrapperMainProcess` (lines 233-272) -/

/-- The loop `while ( sd->Started == false ) { Thread::Sleep( 1 ); }` (lines 256-259).
The flag is `true` when the loop was left. -/
def waitStarted (env : Env) : Nat → World → Bool × World
  | 0, w => (false, w)
  | fuel + 1, w =>
    let (started, w) := readStarted env w
    if started == false then
      waitStarted env fuel (Sleep env 1 w)
    else
      (true, w)

/-- The loop `for ( ;; ) { if ( finalProcess.TryLock() == true ) break; Thread::Sleep( 1 ); }`
(lines 262-269). The flag is `true` when the loop was left. -/
def waitFinalExit (env : Env) : Nat → World → Bool × World
  | 0, w => (false, w)
  | fuel + 1, w =>
    let (locked, w) := SystemMutex.TryLock env .finalProcess w
    if locked == true then
      (true, w)
    else
      waitFinalExit env fuel (Sleep env 1 w)

/-- The function `WrapperMainProcess`. -/
def WrapperMainProcess (env : Env) (args : String) (options : FBuildOptions)
    (fuel : Nat) (w : World) : Outcome × World :=
  -- Create SharedMemory to communicate between Main and Final process
  let w := SharedMemoryCreate env options.GetSharedMemoryName w
  if !w.mapped then
    -- memset through a null pointer
    (.crash, w)
  else
    let w := memsetZero env w
    let w := writeReturnCode env FBUILD_WRAPPER_CRASHED w
    -- launch intermediate process
    let argsCopy := args ++ " -wrapperintermediate"
    let (ok, w) := ProcessSpawn env options.m_ProgramName argsCopy options.GetWorkingDir w
    if !ok then
      (.exit FBUILD_FAILED_TO_SPAWN_WRAPPER, w)
    else
      -- the intermediate process will exit immediately after launching the final process
      let (_, w) := ProcessWaitForExit env w
      -- wait for final process to signal as started
      let (left, w) := waitStarted env fuel w
      if !left then
        (.running, w)
      else
        -- wait for final process to exit
        let (left, w) := waitFinalExit env fuel w
        if !left then
          (.running, w)
        else
          let (rc, w) := readReturnCode env w
          (.exit rc, w)

/-! ## `Main` (lines 69-229) -/

/-- The loop of lines 125-132, the wait for the other instance.
`some o` : `Main` ends with `o`; `none` : the mutex was acquired. -/
def waitMainProcess (env : Env) : Nat → World → Option Outcome × World
  | 0, w => (some .running, w)
  | fuel + 1, w =>
    let (locked, w) := SystemMutex.TryLock env .mainProcess w
    if locked == false then
      let w := Sleep env 1000 w
      let (stop, w) := GetStopBuild env w
      if stop then
        (some (.exit FBUILD_BUILD_FAILED), w)
      else
        waitMainProcess env fuel w
    else
      (none, w)

/-- Lines 113-134: only 1 instance running at a time.
`some o` : `Main` ends with `o`; `none` : execution goes on at line 136. -/
def singleInstance (env : Env) (options : FBuildOptions) (fuel : Nat) (w : World) :
    Option Outcome × World :=
  if options.m_WrapperMode = .WRAPPER_MODE_MAIN_PROCESS ∨
     options.m_WrapperMode = .WRAPPER_MODE_NONE then
    let (locked, w) := SystemMutex.TryLock env .mainProcess w
    if locked == false then
      if options.m_WaitMode == false then
        let w := OUTPUT env (.alreadyRunning options.GetWorkingDir) w
        (some (.exit FBUILD_ALREADY_RUNNING), w)
      else
        let w := OUTPUT env .waitingDueToWaitOption w
        waitMainProcess env fuel w
    else
      (none, w)
  else
    (none, w)

/-- The loop of lines 147-156, the Final-role wait for the final-process mutex.
`some o` : `Main` ends with `o`; `none` : the mutex was acquired. -/
def waitFinalProcess (env : Env) : Nat → World → Option Outcome × World
  | 0, w => (some .running, w)
  | fuel + 1, w =>
    let (locked, w) := SystemMutex.TryLock env .finalProcess w
    if !locked then
      let w := OUTPUT env .waitingForAnother w
      let (mainLocked, w) := SystemMutex.TryLock env .mainProcess w
      if mainLocked then
        -- main process has aborted, terminate
        (some (.exit FBUILD_FAILED_TO_SPAWN_WRAPPER_FINAL), w)
      else
        waitFinalProcess env fuel (Sleep env 1000 w)
    else
      (none, w)

/-- Lines 144-168: the Final-role process takes the final-process mutex, opens the
shared block and signals that it has started.
`some o` : `Main` ends with `o`; `none` : execution goes on at line 170, and
`sharedData` is the block when the world is mapped, `nullptr` otherwise. -/
def finalStartup (env : Env) (options : FBuildOptions) (fuel : Nat) (w : World) :
    Option Outcome × World :=
  if options.m_WrapperMode = .WRAPPER_MODE_FINAL_PROCESS then
    match waitFinalProcess env fuel w with
    | (some o, w) => (some o, w)
    | (none, w) =>
      let w := SharedMemoryOpen env options.GetSharedMemoryName w
      -- signal to "main" process that we have started
      if !w.mapped then
        -- main process was killed while we were waiting
        (some (.exit FBUILD_FAILED_TO_SPAWN_WRAPPER_FINAL), w)
      else
        (none, writeStarted env true w)
  else
    (none, w)

/-- Lines 190-206: the operation the options select, and its boolean result. -/
def runSelected (env : Env) (options : FBuildOptions) (w : World) : Bool × World :=
  if options.m_DisplayDependencyDB then
    (env.dependencyDB, w.step env (.displayDependencyDB options.m_Targets env.dependencyDB))
  else if options.m_CacheInfo then
    (env.cacheInfo, w.step env (.cacheOutputInfo env.cacheInfo))
  else if options.m_CacheTrim then
    (env.cacheTrim, w.step env (.cacheTrim env.cacheTrim))
  else
    (env.build, w.step env (.build options.m_Targets env.build))

/-- Lines 170-228: the build itself. `sharedData` is `true` when the pointer
`sharedData` is non-null. -/
def runFBuild (env : Env) (options : FBuildOptions) (sharedData : Bool) (w : World) :
    Outcome × World :=
  -- load the dependency graph if available
  let w := w.step env (.fbuildInitialize env.initOk)
  if !env.initOk then
    let w := if sharedData then writeReturnCode env FBUILD_ERROR_LOADING_BFF w else w
    let w := w.step env .deregisterHandler
    (.exit FBUILD_ERROR_LOADING_BFF, w)
  else if options.m_DisplayTargetList then
    let w := w.step env .displayTargetList
    let w := w.step env .deregisterHandler
    (.exit FBUILD_OK, w)
  else
    let (result, w) := runSelected env options w
    let w :=
      if sharedData then
        writeReturnCode env (if result == true then FBUILD_OK else FBUILD_BUILD_FAILED) w
      else w
    -- final line of output - status of build
    let w := w.step env .flogBuildTime
    let w := w.step env .deregisterHandler
    (.exit (if result == true then FBUILD_OK else FBUILD_BUILD_FAILED), w)

/-- Lines 136-228: `Main` once the single-instance check is passed. -/
def afterSingleInstance (env : Env) (options : FBuildOptions) (fuel : Nat) (w : World) :
    Outcome × World :=
  if options.m_WrapperMode = .WRAPPER_MODE_MAIN_PROCESS then
    WrapperMainProcess env options.m_Args options fuel w
  else
    match finalStartup env options fuel w with
    | (some o, w) => (o, w)
    | (none, w) =>
      runFBuild env options
        (decide (options.m_WrapperMode = .WRAPPER_MODE_FINAL_PROCESS) && w.mapped) w

/-- The world a process starts in: nothing done yet, the block not mapped. -/
def World.start (mem : SharedData) : World :=
  { trace := [], mem := mem, mapped := false, nTryMain := 0, nTryFinal := 0, nStop := 0 }

/-- The function `Main`. `parsed` and `options` are what `ProcessCommandLine`
gives; `mem` is the content of the named block when the process starts.
Not modelled: the `Timer` of line 73, whose reading only feeds the text of the
last log line, and the Windows-only `SetPriorityClass` of lines 95-99. -/
def Main (env : Env) (parsed : OptionsResult) (options : FBuildOptions) (fuel : Nat)
    (mem : SharedData) : Outcome × World :=
  -- Register Ctrl-C Handler
  let w := (World.start mem).step env .ctrlCRegister
  -- handle cmd line args
  let w := w.step env (.processCommandLine parsed)
  match parsed with
  | .OPTIONS_OK_AND_QUIT => (.exit FBUILD_OK, w)
  | .OPTIONS_ERROR => (.exit FBUILD_BAD_ARGS, w)
  | .OPTIONS_OK =>
    if options.m_WrapperMode = .WRAPPER_MODE_INTERMEDIATE_PROCESS then
      WrapperIntermediateProcess env options w
    else
      -- don't buffer output
      let w := w.step env .setvbuf
      let w := w.step env .setvbuf
      -- ensure only one FASTBuild instance is running at a time
      let w := w.step env (.mutexConstruct .mainProcess options.GetMainProcessMutexName)
      let w := w.step env (.mutexConstruct .finalProcess options.GetFinalProcessMutexName)
      match singleInstance env options fuel w with
      | (some o, w) => (o, w)
      | (none, w) => afterSingleInstance env options fuel w

/-! ## Vocabulary for traces -/

/-- The events `r`, repeated `n` times: `n` rounds of a polling loop. -/
def rounds : Nat → List Event → List Event
  | 0, _ => []
  | n + 1, r => r ++ rounds n r

/-- A write into the shared block. -/
def Event.isSegmentWrite : Event → Bool
  | .memset => true
  | .writeStarted _ => true
  | .writeReturnCode _ => true
  | _ => false

/-- Any operation on the shared segment: creating, opening, reading or writing it. -/
def Event.isSegmentOp : Event → Bool
  | .smCreate _ _ => true
  | .smOpen _ _ => true
  | .memset => true
  | .writeStarted _ => true
  | .writeReturnCode _ => true
  | .readStarted _ => true
  | .readReturnCode _ => true
  | _ => false

/-- A call into the build engine (`FBuild`). -/
def Event.isBuildEngineOp : Event → Bool
  | .fbuildInitialize _ => true
  | .displayTargetList => true
  | .displayDependencyDB _ _ => true
  | .cacheOutputInfo _ => true
  | .cacheTrim _ => true
  | .build _ _ => true
  | _ => false

/-- An operation on a child process. -/
def Event.isProcessOp : Event → Bool
  | .spawn _ _ _ _ => true
  | .waitForExit _ => true
  | .detach => true
  | _ => false

/-- A `Thread::Sleep`. -/
def Event.isSleep : Event → Bool
  | .sleep _ => true
  | _ => false

/-- A `TryLock` on either mutex. -/
def Event.isTryLock : Event → Bool
  | .tryLock _ _ => true
  | _ => false

/-- The construction of, or a `TryLock` on, a named mutex. -/
def Event.isMutexOp : Event → Bool
  | .mutexConstruct _ _ => true
  | .tryLock _ _ => true
  | _ => false

/-- The operations `Main` makes before line 112, when the command line parsed and
the process is not the intermediate one. -/
def preamble (options : FBuildOptions) : List Event :=
  [.ctrlCRegister, .processCommandLine .OPTIONS_OK, .setvbuf, .setvbuf,
   .mutexConstruct .mainProcess options.GetMainProcessMutexName,
   .mutexConstruct .finalProcess options.GetFinalProcessMutexName]

/-- The world in which `Main` reaches line 112, when the command line parsed
and the process is not the intermediate one. -/
def World.atLine112 (env : Env) (options : FBuildOptions) (mem : SharedData) : World :=
  World.step env (.mutexConstruct .finalProcess options.GetFinalProcessMutexName)
    (World.step env (.mutexConstruct .mainProcess options.GetMainProcessMutexName)
      (World.step env .setvbuf (World.step env .setvbuf
        (World.step env (.processCommandLine .OPTIONS_OK)
          (World.step env .ctrlCRegister (World.start mem))))))

/-- One round of the wait loop of lines 125-132 that neither acquires nor stops. -/
def mainWaitRound : List Event :=
  [.tryLock .mainProcess false, .sleep 1000, .getStopBuild false]

/-- One round of the Final-role loop of lines 147-156 that fails on both mutexes,
with the sleep it ends with. -/
def finalWaitRound (ms : Nat) : List Event :=
  [.tryLock .finalProcess false, .output .waitingForAnother, .tryLock .mainProcess false,
   .sleep ms]

/-- The world after one round of the loop of lines 147-156 that goes round again. -/
def finalRoundWorld (env : Env) (w : World) : World :=
  Sleep env 1000
    (SystemMutex.TryLock env .mainProcess
      (OUTPUT env .waitingForAnother (SystemMutex.TryLock env .finalProcess w).2)).2

/-- The world after `j` rounds of the loop of lines 147-156 that go round again. -/
def finalRoundsWorld (env : Env) : Nat → World → World
  | 0, w => w
  | j + 1, w => finalRoundsWorld env j (finalRoundWorld env w)

/-- Lines 158-228 in the Final role, from the result of the loop of lines 147-156. -/
def finalTail (env : Env) (options : FBuildOptions) : Option Outcome × World → Outcome × World
  | (some o, w) => (o, w)
  | (none, w) =>
    if !(SharedMemoryOpen env options.GetSharedMemoryName w).mapped then
      (.exit FBUILD_FAILED_TO_SPAWN_WRAPPER_FINAL,
        SharedMemoryOpen env options.GetSharedMemoryName w)
    else
      runFBuild env options true
        (writeStarted env true (SharedMemoryOpen env options.GetSharedMemoryName w))

/-- The events `runFBuild` can add to the trace, given whether `sharedData` is non-null. -/
def Event.isFBuildStep (sharedData : Bool) : Event → Bool
  | .fbuildInitialize _ => true
  | .displayTargetList => true
  | .displayDependencyDB _ _ => true
  | .cacheOutputInfo _ => true
  | .cacheTrim _ => true
  | .build _ _ => true
  | .flogBuildTime => true
  | .deregisterHandler => true
  | .writeReturnCode v => sharedData && (v == 0 || v == -1 || v == -2)
  | _ => false

/-- The world after lines 236-253 of `WrapperMainProcess`, when the block is mapped
and the intermediate process was spawned and waited for. -/
def spawnedWorld (env : Env) (args : String) (options : FBuildOptions) (w : World) : World :=
  (ProcessWaitForExit env
    (ProcessSpawn env options.m_ProgramName (args ++ " -wrapperintermediate")
      options.GetWorkingDir
      (writeReturnCode env FBUILD_WRAPPER_CRASHED
        (memsetZero env (SharedMemoryCreate env options.GetSharedMemoryName w)))).2).2

/-- The world in which `WrapperMainProcess` reaches line 241, when the block is
mapped: the block was created (line 236), zeroed (line 237) and given the
sentinel (line 239). -/
def sentinelWorld (env : Env) (options : FBuildOptions) (w : World) : World :=
  writeReturnCode env FBUILD_WRAPPER_CRASHED
    (memsetZero env (SharedMemoryCreate env options.GetSharedMemoryName w))

/-- Lines 241-271 of `WrapperMainProcess`: from the launch of the intermediate
process on. -/
def wrapperFromLine241 (env : Env) (args : String) (options : FBuildOptions)
    (fuel : Nat) (w : World) : Outcome × World :=
  -- launch intermediate process
  let argsCopy := args ++ " -wrapperintermediate"
  let (ok, w) := ProcessSpawn env options.m_ProgramName argsCopy options.GetWorkingDir w
  if !ok then
    (.exit FBUILD_FAILED_TO_SPAWN_WRAPPER, w)
  else
    -- the intermediate process will exit immediately after launching the final process
    let (_, w) := ProcessWaitForExit env w
    -- wait for final process to signal as started
    let (left, w) := waitStarted env fuel w
    if !left then
      (.running, w)
    else
      -- wait for final process to exit
      let (left, w) := waitFinalExit env fuel w
      if !left then
        (.running, w)
      else
        let (rc, w) := readReturnCode env w
        (.exit rc, w)

/-- A `Process::Spawn`. -/
def Event.isSpawn : Event → Bool
  | .spawn _ _ _ _ => true
  | _ => false

/-- The operations of lines 236-253 when the block is mapped and the spawn succeeds. -/
def wrapperSetup (env : Env) (args : String) (options : FBuildOptions) : List Event :=
  [.smCreate options.GetSharedMemoryName true, .memset, .writeReturnCode (-7),
   .spawn options.m_ProgramName (args ++ " -wrapperintermediate") options.GetWorkingDir true,
   .waitForExit env.childExit]

/-- The operations the single-instance check of lines 113-134 can make. -/
def Event.isInstanceStep : Event → Bool
  | .tryLock .mainProcess _ => true
  | .sleep ms => ms == 1000
  | .getStopBuild _ => true
  | .output _ => true
  | _ => false

/-! ## Concrete runs -/

/-- An options record for a given role and wait flag. -/
def sampleOptions (mode : WrapperMode) (wait : Bool) : FBuildOptions :=
  { m_Args := "-cache all", m_ProgramName := "fbuild", m_WrapperMode := mode,
    m_WaitMode := wait, m_DisplayTargetList := false, m_DisplayDependencyDB := false,
    m_CacheInfo := false, m_CacheTrim := false, m_Targets := ["all"],
    GetWorkingDir := "/work", GetMainProcessMutexName := "main-mutex",
    GetFinalProcessMutexName := "final-mutex", GetSharedMemoryName := "shm" }

/-- An outside in which every lock is free, every call succeeds and nobody else
touches the shared block. -/
def quietEnv : Env :=
  { tryLock := fun _ _ => true, stopBuild := fun _ => false, spawnOk := true, childExit := 0,
    createOk := true, openOk := true, initOk := true, dependencyDB := true,
    cacheInfo := true, cacheTrim := true, build := true, others := fun _ s => s }

/-- An outside in which another instance holds both mutexes for good. -/
def busyEnv : Env :=
  { quietEnv with tryLock := fun _ _ => false }

/-- An outside in which the primary mutex is free from the fourth `TryLock` on. -/
def releasedLaterEnv : Env :=
  { quietEnv with tryLock := fun _ n => decide (3 ≤ n) }

/-- An outside in which the primary mutex stays taken and the stop flag is set
at the third check. -/
def interruptedEnv : Env :=
  { quietEnv with tryLock := fun _ _ => false, stopBuild := fun n => decide (2 ≤ n) }

/-- An outside in which spawning a child fails. -/
def noSpawnEnv : Env :=
  { quietEnv with spawnOk := false }

/-- An outside for a Final-role process whose Main-role process has gone: the
final-process mutex is still taken, the primary mutex is free at the second try. -/
def mainGoneEnv : Env :=
  { quietEnv with tryLock := fun m n =>
      match m with
      | .finalProcess => false
      | .mainProcess => decide (1 ≤ n) }

/-- An outside for a Final-role process that gets the final-process mutex at the
second try. -/
def finalFreeLaterEnv : Env :=
  { quietEnv with tryLock := fun m n =>
      match m with
      | .finalProcess => decide (1 ≤ n)
      | .mainProcess => false }

/-- As `finalFreeLaterEnv`, but the shared block cannot be opened. -/
def noSegmentEnv : Env :=
  { finalFreeLaterEnv with openOk := false }

/-- An outside for a Main-role process: the primary mutex is free, another
process sets `Started` just before the operation made at time 14, and the
final-process mutex is free at the second `TryLock`. Nobody else writes
`ReturnCode`. -/
def startedLaterEnv : Env :=
  { quietEnv with
    tryLock := fun m n =>
      match m with
      | .mainProcess => true
      | .finalProcess => decide (1 ≤ n)
    others := fun n s => if n = 14 then { s with Started := true } else s }

/-- An outside in which the build returns `r` and everything else is as in `quietEnv`. -/
def buildEnv (r : Bool) : Env :=
  { quietEnv with build := r }

/-- An outside for a Main-role process whose Final-role process runs, from start
to exit, just before the operation the Main-role process makes at time 14: the
block is then what the run of `Main` in the Final role, with build result `r`,
leaves of it. -/
def relayEnv (r : Bool) : Env :=
  { quietEnv with
    others := fun n s =>
      if n = 14 then
        (Main (buildEnv r) .OPTIONS_OK (sampleOptions .WRAPPER_MODE_FINAL_PROCESS false) 1 s).2.mem
      else s }

/-- An outside for a Main-role process whose intermediate process fails to spawn
the Final-role process and exits with -6: nobody ever sets `Started`. -/
def vanishedFinalEnv : Env :=
  { quietEnv with childExit := -6 }

/-- The options of a Final-role process asked to display the target list. -/
def showTargetsOptions : FBuildOptions :=
  { sampleOptions .WRAPPER_MODE_FINAL_PROCESS false with m_DisplayTargetList := true }

/-! ## Lemmas on the loops -/

theorem mem_rounds {e : Event} {r : List Event} : ∀ {n : Nat}, e ∈ rounds n r → e ∈ r
  | 0, h => by simp [rounds] at h
  | n + 1, h => by
    simp only [rounds, List.mem_append] at h
    rcases h with h | h
    · exact h
    · exact mem_rounds h

/-- The wait loop of lines 125-132, when its first `j` rounds neither acquire
the mutex nor see the stop flag and round `j` does one of the two. -/
theorem waitMainProcess_rounds (env : Env) : ∀ (j fuel : Nat) (w : World), j < fuel →
    (∀ i, i < j → env.tryLock .mainProcess (w.nTryMain + i) = false ∧
      env.stopBuild (w.nStop + i) = false) →
    (env.tryLock .mainProcess (w.nTryMain + j) = true ∨ env.stopBuild (w.nStop + j) = true) →
    ∃ w' : World,
      w'.trace = w.trace ++ rounds j mainWaitRound ++
        (if env.tryLock .mainProcess (w.nTryMain + j) = true then [.tryLock .mainProcess true]
         else [.tryLock .mainProcess false, .sleep 1000, .getStopBuild true]) ∧
      w'.mapped = w.mapped ∧
      waitMainProcess env fuel w =
        (if env.tryLock .mainProcess (w.nTryMain + j) = true then none
         else some (.exit FBUILD_BUILD_FAILED), w') := by
  intro j
  induction j with
  | zero =>
    intro fuel w hf _ hend
    obtain ⟨f, rfl⟩ : ∃ f, fuel = f + 1 := ⟨fuel - 1, by omega⟩
    simp only [Nat.add_zero] at hend ⊢
    by_cases hl : env.tryLock .mainProcess w.nTryMain = true
    · refine ⟨(SystemMutex.TryLock env .mainProcess w).2, ?_, ?_, ?_⟩
      · simp [rounds, World.step, SystemMutex.TryLock, hl]
      · simp [World.step, SystemMutex.TryLock]
      · simp [waitMainProcess, hl, SystemMutex.TryLock]
    · have hl' : env.tryLock .mainProcess w.nTryMain = false := by simpa using hl
      have hs : env.stopBuild w.nStop = true := by
        rcases hend with h | h
        · exact absurd h hl
        · exact h
      refine ⟨(GetStopBuild env (Sleep env 1000 (SystemMutex.TryLock env .mainProcess w).2)).2,
        ?_, ?_, ?_⟩
      · simp [rounds, World.step, SystemMutex.TryLock, GetStopBuild, Sleep, hl', hs]
      · simp [World.step, SystemMutex.TryLock, GetStopBuild, Sleep]
      · simp [waitMainProcess, hl', SystemMutex.TryLock, GetStopBuild, Sleep, World.step, hs]
  | succ j ih =>
    intro fuel w hf hr hend
    obtain ⟨f, rfl⟩ : ∃ f, fuel = f + 1 := ⟨fuel - 1, by omega⟩
    have h0 := hr 0 (by omega)
    simp only [Nat.add_zero] at h0
    obtain ⟨w', ht, hm, hw⟩ := ih f
      (GetStopBuild env (Sleep env 1000 (SystemMutex.TryLock env .mainProcess w).2)).2
      (by omega)
      (by
        intro i hi
        have := hr (i + 1) (by omega)
        simpa [GetStopBuild, Sleep, SystemMutex.TryLock, World.step, Nat.add_assoc,
          Nat.add_comm 1 i] using this)
      (by
        simpa [GetStopBuild, Sleep, SystemMutex.TryLock, World.step, Nat.add_assoc,
          Nat.add_comm 1 j] using hend)
    refine ⟨w', ?_, ?_, ?_⟩
    · rw [ht]
      simp [GetStopBuild, Sleep, SystemMutex.TryLock, World.step, h0.1, h0.2, rounds,
        mainWaitRound, Nat.add_assoc, Nat.add_comm 1 j]
    · rw [hm]
      simp [GetStopBuild, Sleep, SystemMutex.TryLock, World.step]
    · have : waitMainProcess env (f + 1) w = waitMainProcess env f
          (GetStopBuild env (Sleep env 1000 (SystemMutex.TryLock env .mainProcess w).2)).2 := by
        simp [waitMainProcess, SystemMutex.TryLock, h0.1, GetStopBuild, Sleep, World.step, h0.2]
      rw [this, hw]
      simp [GetStopBuild, Sleep, SystemMutex.TryLock, World.step, Nat.add_assoc,
        Nat.add_comm 1 j]

/-! ### The Final-role loop of lines 147-156 -/

theorem waitFinalProcess_acquired (env : Env) (f : Nat) (w : World)
    (h : env.tryLock .finalProcess w.nTryFinal = true) :
    waitFinalProcess env (f + 1) w = (none, (SystemMutex.TryLock env .finalProcess w).2) := by
  simp [waitFinalProcess, SystemMutex.TryLock, h]

theorem waitFinalProcess_abort (env : Env) (f : Nat) (w : World)
    (h1 : env.tryLock .finalProcess w.nTryFinal = false)
    (h2 : env.tryLock .mainProcess w.nTryMain = true) :
    waitFinalProcess env (f + 1) w =
      (some (.exit FBUILD_FAILED_TO_SPAWN_WRAPPER_FINAL),
        (SystemMutex.TryLock env .mainProcess
          (OUTPUT env .waitingForAnother (SystemMutex.TryLock env .finalProcess w).2)).2) := by
  simp [waitFinalProcess, SystemMutex.TryLock, h1, h2, OUTPUT, World.step]

theorem waitFinalProcess_again (env : Env) (f : Nat) (w : World)
    (h1 : env.tryLock .finalProcess w.nTryFinal = false)
    (h2 : env.tryLock .mainProcess w.nTryMain = false) :
    waitFinalProcess env (f + 1) w = waitFinalProcess env f (finalRoundWorld env w) := by
  simp [waitFinalProcess, SystemMutex.TryLock, h1, h2, OUTPUT, World.step, finalRoundWorld, Sleep]

theorem finalRoundWorld_fields (env : Env) (w : World)
    (h1 : env.tryLock .finalProcess w.nTryFinal = false)
    (h2 : env.tryLock .mainProcess w.nTryMain = false) :
    (finalRoundWorld env w).trace = w.trace ++ finalWaitRound 1000 ∧
    (finalRoundWorld env w).nTryFinal = w.nTryFinal + 1 ∧
    (finalRoundWorld env w).nTryMain = w.nTryMain + 1 ∧
    (finalRoundWorld env w).mapped = w.mapped ∧
    ((∀ n s, env.others n s = s) → (finalRoundWorld env w).mem = w.mem) := by
  refine ⟨?_, ?_, ?_, ?_, ?_⟩
  · simp [finalRoundWorld, Sleep, SystemMutex.TryLock, OUTPUT, World.step, h1, h2,
      finalWaitRound]
  · simp [finalRoundWorld, Sleep, SystemMutex.TryLock, OUTPUT, World.step]
  · simp [finalRoundWorld, Sleep, SystemMutex.TryLock, OUTPUT, World.step]
  · simp [finalRoundWorld, Sleep, SystemMutex.TryLock, OUTPUT, World.step]
  · intro hid
    simp [finalRoundWorld, Sleep, SystemMutex.TryLock, OUTPUT, World.step, World.sync, hid]

/-- The loop of lines 147-156 over its first `j` rounds, when they fail on both
mutexes. -/
theorem waitFinalProcess_rounds (env : Env) : ∀ (j fuel : Nat) (w : World), j ≤ fuel →
    (∀ i, i < j → env.tryLock .finalProcess (w.nTryFinal + i) = false ∧
      env.tryLock .mainProcess (w.nTryMain + i) = false) →
    (finalRoundsWorld env j w).trace = w.trace ++ rounds j (finalWaitRound 1000) ∧
    (finalRoundsWorld env j w).nTryFinal = w.nTryFinal + j ∧
    (finalRoundsWorld env j w).nTryMain = w.nTryMain + j ∧
    (finalRoundsWorld env j w).mapped = w.mapped ∧
    ((∀ n s, env.others n s = s) → (finalRoundsWorld env j w).mem = w.mem) ∧
    waitFinalProcess env fuel w = waitFinalProcess env (fuel - j) (finalRoundsWorld env j w) := by
  intro j
  induction j with
  | zero =>
    intro fuel w _ _
    simp [finalRoundsWorld, rounds]
  | succ j ih =>
    intro fuel w hf hr
    obtain ⟨f, rfl⟩ : ∃ f, fuel = f + 1 := ⟨fuel - 1, by omega⟩
    have h0 := hr 0 (by omega)
    simp only [Nat.add_zero] at h0
    obtain ⟨t1, t2, t3, t4, t5⟩ := finalRoundWorld_fields env w h0.1 h0.2
    obtain ⟨r1, r2, r3, r4, r5, r6⟩ := ih f (finalRoundWorld env w) (by omega)
      (by
        intro i hi
        rw [t2, t3, Nat.add_assoc, Nat.add_assoc, Nat.add_comm 1 i]
        exact hr (i + 1) (by omega))
    refine ⟨?_, ?_, ?_, ?_, ?_, ?_⟩
    · show (finalRoundsWorld env j (finalRoundWorld env w)).trace = _
      rw [r1, t1, List.append_assoc]; rfl
    · show (finalRoundsWorld env j (finalRoundWorld env w)).nTryFinal = _
      rw [r2, t2]; omega
    · show (finalRoundsWorld env j (finalRoundWorld env w)).nTryMain = _
      rw [r3, t3]; omega
    · show (finalRoundsWorld env j (finalRoundWorld env w)).mapped = _
      rw [r4, t4]
    · intro hid
      show (finalRoundsWorld env j (finalRoundWorld env w)).mem = _
      rw [r5 hid, t5 hid]
    · rw [waitFinalProcess_again env f w h0.1 h0.2, r6]
      have : f + 1 - (j + 1) = f - j := by omega
      rw [this]; rfl

/-- Every run of the loop of lines 147-156 is a number of rounds that fail on
both mutexes, followed by nothing (still polling), by the abort on the primary
mutex, or by the acquisition of the final-process mutex. -/
theorem waitFinalProcess_shape (env : Env) : ∀ (fuel : Nat) (w : World),
    ∃ (a : Nat) (tail : List Event),
      (waitFinalProcess env fuel w).2.trace =
        w.trace ++ rounds a (finalWaitRound 1000) ++ tail ∧
      ((∀ n s, (env.others n s).ReturnCode = s.ReturnCode) →
        (waitFinalProcess env fuel w).2.mem.ReturnCode = w.mem.ReturnCode) ∧
      (((waitFinalProcess env fuel w).1 = some .running ∧ tail = []) ∨
       ((waitFinalProcess env fuel w).1 = some (.exit FBUILD_FAILED_TO_SPAWN_WRAPPER_FINAL) ∧
          tail = [.tryLock .finalProcess false, .output .waitingForAnother,
            .tryLock .mainProcess true]) ∨
       ((waitFinalProcess env fuel w).1 = none ∧ tail = [.tryLock .finalProcess true])) := by
  intro fuel
  induction fuel with
  | zero =>
    intro w
    exact ⟨0, [], by simp [waitFinalProcess, rounds], fun _ => rfl, Or.inl ⟨rfl, rfl⟩⟩
  | succ f ih =>
    intro w
    by_cases h1 : env.tryLock .finalProcess w.nTryFinal = true
    · refine ⟨0, [.tryLock .finalProcess true], ?_, ?_, Or.inr (Or.inr ⟨?_, rfl⟩)⟩
      · rw [waitFinalProcess_acquired env f w h1]
        simp [SystemMutex.TryLock, World.step, h1, rounds]
      · intro hq
        rw [waitFinalProcess_acquired env f w h1]
        simp [SystemMutex.TryLock, World.step, World.sync, hq]
      · rw [waitFinalProcess_acquired env f w h1]
    · have h1' : env.tryLock .finalProcess w.nTryFinal = false := by simpa using h1
      by_cases h2 : env.tryLock .mainProcess w.nTryMain = true
      · refine ⟨0, _, ?_, ?_, Or.inr (Or.inl ⟨?_, rfl⟩)⟩
        · rw [waitFinalProcess_abort env f w h1' h2]
          simp [SystemMutex.TryLock, World.step, h1', h2, rounds, OUTPUT]
        · intro hq
          rw [waitFinalProcess_abort env f w h1' h2]
          simp [SystemMutex.TryLock, World.step, OUTPUT, World.sync, hq]
        · rw [waitFinalProcess_abort env f w h1' h2]
      · have h2' : env.tryLock .mainProcess w.nTryMain = false := by simpa using h2
        obtain ⟨t1, _, _, _, _⟩ := finalRoundWorld_fields env w h1' h2'
        obtain ⟨a, tail, ha, hm, hc⟩ := ih (finalRoundWorld env w)
        rw [← waitFinalProcess_again env f w h1' h2'] at ha hm hc
        refine ⟨a + 1, tail, ?_, ?_, hc⟩
        · rw [ha, t1]
          simp [rounds, List.append_assoc]
        · intro hq
          rw [hm hq]
          simp [finalRoundWorld, Sleep, SystemMutex.TryLock, OUTPUT, World.step, World.sync, hq]

/-- The loop of lines 147-156 starts with a `TryLock` on the final-process mutex. -/
theorem waitFinalProcess_first (env : Env) (f : Nat) (w : World) :
    ∃ rest : List Event, (waitFinalProcess env (f + 1) w).2.trace =
      w.trace ++ .tryLock .finalProcess (env.tryLock .finalProcess w.nTryFinal) :: rest := by
  by_cases h1 : env.tryLock .finalProcess w.nTryFinal = true
  · refine ⟨[], ?_⟩
    rw [waitFinalProcess_acquired env f w h1]
    simp [SystemMutex.TryLock, World.step]
  · have h1' : env.tryLock .finalProcess w.nTryFinal = false := by simpa using h1
    by_cases h2 : env.tryLock .mainProcess w.nTryMain = true
    · refine ⟨[.output .waitingForAnother, .tryLock .mainProcess true], ?_⟩
      rw [waitFinalProcess_abort env f w h1' h2]
      simp [SystemMutex.TryLock, World.step, h1', h2, OUTPUT]
    · have h2' : env.tryLock .mainProcess w.nTryMain = false := by simpa using h2
      obtain ⟨t1, _⟩ := finalRoundWorld_fields env w h1' h2'
      obtain ⟨a, tail, ha, _⟩ := waitFinalProcess_shape env f (finalRoundWorld env w)
      refine ⟨[.output .waitingForAnother, .tryLock .mainProcess false, .sleep 1000] ++
        rounds a (finalWaitRound 1000) ++ tail, ?_⟩
      rw [waitFinalProcess_again env f w h1' h2', ha, t1, h1']
      simp [finalWaitRound]

/-! ### The build, lines 170-228 -/

/-- The operation the options select is one call into the build engine. -/
theorem runSelected_step (env : Env) (options : FBuildOptions) (w : World) :
    ∃ e : Event, (runSelected env options w).2 = w.step env e ∧ e.isBuildEngineOp = true ∧
      (∀ sd, e.isFBuildStep sd = true) ∧
      (e = .build options.m_Targets env.build ∨ ∀ t r, e ≠ .build t r) ∧
      (∀ t r, e = .build t r → (runSelected env options w).1 = r) := by
  unfold runSelected
  by_cases h1 : options.m_DisplayDependencyDB = true
  · exact ⟨.displayDependencyDB options.m_Targets env.dependencyDB, by simp [h1], rfl,
      fun _ => rfl, Or.inr (by simp), by simp⟩
  · by_cases h2 : options.m_CacheInfo = true
    · exact ⟨.cacheOutputInfo env.cacheInfo, by simp [h1, h2], rfl, fun _ => rfl,
        Or.inr (by simp), by simp⟩
    · by_cases h3 : options.m_CacheTrim = true
      · exact ⟨.cacheTrim env.cacheTrim, by simp [h1, h2, h3], rfl, fun _ => rfl,
          Or.inr (by simp), by simp⟩
      · refine ⟨.build options.m_Targets env.build, by simp [h1, h2, h3], rfl, fun _ => rfl,
          Or.inl rfl, ?_⟩
        intro t r h
        injection h with _ h'
        simp only [h1, h2, h3, Bool.false_eq_true, if_false]
        exact h'

theorem runFBuild_load_failed (env : Env) (options : FBuildOptions) (sd : Bool) (w : World)
    (h : env.initOk = false) :
    runFBuild env options sd w =
      (.exit FBUILD_ERROR_LOADING_BFF,
        World.step env .deregisterHandler
          (if sd = true then
            writeReturnCode env FBUILD_ERROR_LOADING_BFF (w.step env (.fbuildInitialize false))
           else w.step env (.fbuildInitialize false))) := by
  simp [runFBuild, h]

theorem runFBuild_target_list (env : Env) (options : FBuildOptions) (sd : Bool) (w : World)
    (h : env.initOk = true) (hl : options.m_DisplayTargetList = true) :
    runFBuild env options sd w =
      (.exit FBUILD_OK,
        World.step env .deregisterHandler
          (World.step env .displayTargetList (w.step env (.fbuildInitialize true)))) := by
  simp [runFBuild, h, hl]

theorem runFBuild_selected (env : Env) (options : FBuildOptions) (sd : Bool) (w : World)
    (h : env.initOk = true) (hl : options.m_DisplayTargetList = false) :
    runFBuild env options sd w =
      (.exit (if (runSelected env options (w.step env (.fbuildInitialize true))).1 = true
          then FBUILD_OK else FBUILD_BUILD_FAILED),
        World.step env .deregisterHandler
          (World.step env .flogBuildTime
            (if sd = true then
              writeReturnCode env
                (if (runSelected env options (w.step env (.fbuildInitialize true))).1 = true
                  then FBUILD_OK else FBUILD_BUILD_FAILED)
                (runSelected env options (w.step env (.fbuildInitialize true))).2
             else (runSelected env options (w.step env (.fbuildInitialize true))).2))) := by
  simp [runFBuild, h, hl]

/-- What `runFBuild` adds to the trace. -/
theorem runFBuild_trace (env : Env) (options : FBuildOptions) (sd : Bool) (w : World) :
    ∃ rest : List Event, (runFBuild env options sd w).2.trace = w.trace ++ rest ∧
      ∀ e ∈ rest, e.isFBuildStep sd = true := by
  by_cases hi : env.initOk = true
  · by_cases hl : options.m_DisplayTargetList = true
    · rw [runFBuild_target_list env options sd w hi hl]
      refine ⟨[.fbuildInitialize true, .displayTargetList, .deregisterHandler], ?_, ?_⟩
      · simp [World.step]
      · simp [Event.isFBuildStep]
    · have hl' : options.m_DisplayTargetList = false := by simpa using hl
      rw [runFBuild_selected env options sd w hi hl']
      obtain ⟨e, he, _, hs, _⟩ := runSelected_step env options
        (w.step env (.fbuildInitialize true))
      rw [he]
      cases sd
      · refine ⟨[.fbuildInitialize true, e, .flogBuildTime, .deregisterHandler], ?_, ?_⟩
        · simp [World.step]
        · intro x hx
          simp only [List.mem_cons, List.mem_singleton, List.mem_nil_iff, or_false] at hx
          rcases hx with rfl | rfl | rfl | rfl
          · rfl
          · exact hs _
          · rfl
          · rfl
      · refine ⟨[.fbuildInitialize true, e, .writeReturnCode
          (if (runSelected env options (w.step env (.fbuildInitialize true))).1 = true
            then FBUILD_OK else FBUILD_BUILD_FAILED), .flogBuildTime, .deregisterHandler], ?_, ?_⟩
        · simp [World.step, writeReturnCode, he]
        · intro x hx
          simp only [List.mem_cons, List.mem_singleton, List.mem_nil_iff, or_false] at hx
          rcases hx with rfl | rfl | rfl | rfl | rfl
          · rfl
          · exact hs _
          · cases (runSelected env options (w.step env (.fbuildInitialize true))).1 <;>
              simp [Event.isFBuildStep, FBUILD_OK, FBUILD_BUILD_FAILED]
          · rfl
          · rfl
  · have hi' : env.initOk = false := by simpa using hi
    rw [runFBuild_load_failed env options sd w hi']
    cases sd
    · refine ⟨[.fbuildInitialize false, .deregisterHandler], ?_, ?_⟩
      · simp [World.step]
      · simp [Event.isFBuildStep]
    · refine ⟨[.fbuildInitialize false, .writeReturnCode FBUILD_ERROR_LOADING_BFF,
        .deregisterHandler], ?_, ?_⟩
      · simp [World.step, writeReturnCode]
      · simp [Event.isFBuildStep, FBUILD_ERROR_LOADING_BFF]

/-- What lines 158-228 add to the trace in the Final role. -/
theorem finalTail_trace (env : Env) (options : FBuildOptions) (r : Option Outcome × World) :
    ∃ rest : List Event, (finalTail env options r).2.trace = r.2.trace ++ rest ∧
      ∀ e ∈ rest, e = .smOpen options.GetSharedMemoryName env.openOk ∨ e = .writeStarted true ∨
        e.isFBuildStep true = true := by
  rcases r with ⟨_ | o, w⟩
  · by_cases hm : (SharedMemoryOpen env options.GetSharedMemoryName w).mapped = true
    · obtain ⟨rest, hr, hk⟩ := runFBuild_trace env options true
        (writeStarted env true (SharedMemoryOpen env options.GetSharedMemoryName w))
      refine ⟨[.smOpen options.GetSharedMemoryName env.openOk, .writeStarted true] ++ rest,
        ?_, ?_⟩
      · simp only [finalTail, hm, Bool.not_true, Bool.false_eq_true, if_false]
        rw [hr]
        simp [writeStarted, SharedMemoryOpen, World.step]
      · intro e he
        simp only [List.mem_append, List.mem_cons, List.mem_singleton, List.mem_nil_iff,
          or_false] at he
        rcases he with (rfl | rfl) | he
        · exact Or.inl rfl
        · exact Or.inr (Or.inl rfl)
        · exact Or.inr (Or.inr (hk e he))
    · refine ⟨[.smOpen options.GetSharedMemoryName env.openOk], ?_, ?_⟩
      · have hm' : (SharedMemoryOpen env options.GetSharedMemoryName w).mapped = false := by
          simpa using hm
        simp only [finalTail, hm', Bool.not_false, if_true]
        simp [SharedMemoryOpen, World.step]
      · intro e he
        simp only [List.mem_singleton] at he
        exact Or.inl he
  · exact ⟨[], by simp [finalTail], by simp⟩

/-- The run of `Main` in the Final role. -/
theorem Main_final (env : Env) (options : FBuildOptions) (fuel : Nat) (mem : SharedData)
    (hmode : options.m_WrapperMode = .WRAPPER_MODE_FINAL_PROCESS) :
    Main env .OPTIONS_OK options fuel mem =
      finalTail env options (waitFinalProcess env fuel (World.atLine112 env options mem)) := by
  simp only [Main, hmode, singleInstance, afterSingleInstance, finalStartup]
  simp only [reduceCtorEq, if_false, or_self, if_true]
  show (match (match waitFinalProcess env fuel (World.atLine112 env options mem) with
      | (some o, w) => (some o, w)
      | (none, w) => _) with
      | (some o, w) => (o, w)
      | (none, w) => _) = _
  rcases waitFinalProcess env fuel (World.atLine112 env options mem) with ⟨_ | o, w⟩
  · by_cases hm : (SharedMemoryOpen env options.GetSharedMemoryName w).mapped = true
    · simp [finalTail, hm, writeStarted, World.step]
    · have hm' : (SharedMemoryOpen env options.GetSharedMemoryName w).mapped = false := by
        simpa using hm
      simp [finalTail, hm']
  · simp [finalTail]

/-! ### The loops of `WrapperMainProcess`, lines 256-269 -/

theorem step_trace (env : Env) (e : Event) (w : World) :
    (w.step env e).trace = w.trace ++ [e] := rfl

theorem step_returnCode (env : Env) (e : Event) (w : World) (k : Nat)
    (hq : ∀ n s, k ≤ n → (env.others n s).ReturnCode = s.ReturnCode)
    (hk : k ≤ w.trace.length) :
    (w.step env e).mem.ReturnCode = w.mem.ReturnCode :=
  hq w.trace.length w.mem hk

theorem waitStarted_seen (env : Env) (f : Nat) (w : World)
    (h : (w.sync env).Started = true) :
    waitStarted env (f + 1) w = (true, w.step env (.readStarted true)) := by
  simp [waitStarted, readStarted, h]

theorem waitStarted_again (env : Env) (f : Nat) (w : World)
    (h : (w.sync env).Started = false) :
    waitStarted env (f + 1) w =
      waitStarted env f ((w.step env (.readStarted false)).step env (.sleep 1)) := by
  simp [waitStarted, readStarted, h, Sleep]

/-- Every run of the loop of lines 256-259 is a number of rounds that read
`Started == false` and sleep 1 ms, followed by the read of `true` if the loop is
left. While nobody else writes `ReturnCode`, the loop leaves it as it is. -/
theorem waitStarted_shape (env : Env) : ∀ (fuel : Nat) (w : World),
    ∃ a : Nat,
      (waitStarted env fuel w).2.trace =
        w.trace ++ rounds a [.readStarted false, .sleep 1] ++
          (if (waitStarted env fuel w).1 = true then [.readStarted true] else []) ∧
      (∀ k, (∀ n s, k ≤ n → (env.others n s).ReturnCode = s.ReturnCode) →
        k ≤ w.trace.length →
        (waitStarted env fuel w).2.mem.ReturnCode = w.mem.ReturnCode) ∧
      (waitStarted env fuel w).2.nTryFinal = w.nTryFinal := by
  intro fuel
  induction fuel with
  | zero =>
    intro w
    exact ⟨0, by simp [waitStarted, rounds], fun _ _ _ => rfl, rfl⟩
  | succ f ih =>
    intro w
    by_cases h : (w.sync env).Started = true
    · rw [waitStarted_seen env f w h]
      exact ⟨0, by simp [rounds, step_trace], fun k hq hk => step_returnCode env _ w k hq hk, rfl⟩
    · have h' : (w.sync env).Started = false := by simpa using h
      rw [waitStarted_again env f w h']
      obtain ⟨a, ha, hm, hn⟩ := ih ((w.step env (.readStarted false)).step env (.sleep 1))
      refine ⟨a + 1, ?_, ?_, ?_⟩
      · rw [ha]
        simp [rounds, step_trace]
      · intro k hq hk
        rw [hm k hq (by simp [step_trace]; omega)]
        rw [step_returnCode env _ _ k hq (by simp [step_trace]; omega)]
        exact step_returnCode env _ w k hq hk
      · rw [hn]; rfl

/-- While no other process sets `Started`, the loop of lines 256-259 is never left. -/
theorem waitStarted_stuck (env : Env)
    (hs : ∀ n s, (env.others n s).Started = s.Started) : ∀ (fuel : Nat) (w : World),
    w.mem.Started = false → (waitStarted env fuel w).1 = false := by
  intro fuel
  induction fuel with
  | zero => intro w _; rfl
  | succ f ih =>
    intro w hw
    have h : (w.sync env).Started = false := by
      unfold World.sync
      rw [hs, hw]
    rw [waitStarted_again env f w h]
    apply ih
    show (env.others _ (env.others _ w.mem)).Started = false
    rw [hs, hs, hw]

theorem waitFinalExit_acquired (env : Env) (f : Nat) (w : World)
    (h : env.tryLock .finalProcess w.nTryFinal = true) :
    waitFinalExit env (f + 1) w = (true, (SystemMutex.TryLock env .finalProcess w).2) := by
  simp [waitFinalExit, SystemMutex.TryLock, h]

theorem waitFinalExit_again (env : Env) (f : Nat) (w : World)
    (h : env.tryLock .finalProcess w.nTryFinal = false) :
    waitFinalExit env (f + 1) w =
      waitFinalExit env f (Sleep env 1 (SystemMutex.TryLock env .finalProcess w).2) := by
  simp [waitFinalExit, SystemMutex.TryLock, h]

/-- Every run of the loop of lines 262-269 is a number of rounds that fail to lock
and sleep 1 ms, followed by the successful `TryLock` if the loop is left. While
nobody else writes `ReturnCode`, the loop leaves it as it is. -/
theorem waitFinalExit_shape (env : Env) : ∀ (fuel : Nat) (w : World),
    ∃ b : Nat,
      (waitFinalExit env fuel w).2.trace =
        w.trace ++ rounds b [.tryLock .finalProcess false, .sleep 1] ++
          (if (waitFinalExit env fuel w).1 = true then [.tryLock .finalProcess true] else []) ∧
      (∀ k, (∀ n s, k ≤ n → (env.others n s).ReturnCode = s.ReturnCode) →
        k ≤ w.trace.length →
        (waitFinalExit env fuel w).2.mem.ReturnCode = w.mem.ReturnCode) := by
  intro fuel
  induction fuel with
  | zero =>
    intro w
    exact ⟨0, by simp [waitFinalExit, rounds], fun _ _ _ => rfl⟩
  | succ f ih =>
    intro w
    by_cases h : env.tryLock .finalProcess w.nTryFinal = true
    · rw [waitFinalExit_acquired env f w h]
      refine ⟨0, by simp [rounds, SystemMutex.TryLock, step_trace, h], ?_⟩
      intro k hq hk
      exact hq w.trace.length w.mem hk
    · have h' : env.tryLock .finalProcess w.nTryFinal = false := by simpa using h
      rw [waitFinalExit_again env f w h']
      obtain ⟨b, hb, hm⟩ := ih (Sleep env 1 (SystemMutex.TryLock env .finalProcess w).2)
      refine ⟨b + 1, ?_, ?_⟩
      · rw [hb]
        simp [rounds, Sleep, SystemMutex.TryLock, step_trace, h']
      · intro k hq hk
        rw [hm k hq (by simp [Sleep, SystemMutex.TryLock, step_trace]; omega)]
        have h1 : (Sleep env 1 (SystemMutex.TryLock env .finalProcess w).2).mem.ReturnCode =
            (SystemMutex.TryLock env .finalProcess w).2.mem.ReturnCode :=
          step_returnCode env _ _ k hq (by simp [SystemMutex.TryLock, step_trace]; omega)
        rw [h1]
        exact hq w.trace.length w.mem hk

/-! ### `WrapperMainProcess` -/

theorem WrapperMainProcess_unmapped (env : Env) (args : String) (options : FBuildOptions)
    (fuel : Nat) (w : World) (hc : env.createOk = false) :
    WrapperMainProcess env args options fuel w =
      (.crash, SharedMemoryCreate env options.GetSharedMemoryName w) := by
  simp [WrapperMainProcess, SharedMemoryCreate, hc]

theorem WrapperMainProcess_no_spawn (env : Env) (args : String) (options : FBuildOptions)
    (fuel : Nat) (w : World) (hc : env.createOk = true) (hs : env.spawnOk = false) :
    WrapperMainProcess env args options fuel w =
      (.exit FBUILD_FAILED_TO_SPAWN_WRAPPER,
        (ProcessSpawn env options.m_ProgramName (args ++ " -wrapperintermediate")
          options.GetWorkingDir
          (writeReturnCode env FBUILD_WRAPPER_CRASHED
            (memsetZero env (SharedMemoryCreate env options.GetSharedMemoryName w)))).2) := by
  simp [WrapperMainProcess, SharedMemoryCreate, hc, ProcessSpawn, hs]

theorem WrapperMainProcess_spawned (env : Env) (args : String) (options : FBuildOptions)
    (fuel : Nat) (w : World) (hc : env.createOk = true) (hs : env.spawnOk = true) :
    WrapperMainProcess env args options fuel w =
      if (waitStarted env fuel (spawnedWorld env args options w)).1 = true then
        if (waitFinalExit env fuel
            (waitStarted env fuel (spawnedWorld env args options w)).2).1 = true then
          (.exit (readReturnCode env (waitFinalExit env fuel
              (waitStarted env fuel (spawnedWorld env args options w)).2).2).1,
            (readReturnCode env (waitFinalExit env fuel
              (waitStarted env fuel (spawnedWorld env args options w)).2).2).2)
        else
          (.running, (waitFinalExit env fuel
            (waitStarted env fuel (spawnedWorld env args options w)).2).2)
      else
        (.running, (waitStarted env fuel (spawnedWorld env args options w)).2) := by
  have h1 : WrapperMainProcess env args options fuel w =
      (match waitStarted env fuel (spawnedWorld env args options w) with
       | (left, w1) =>
         if !left then (.running, w1)
         else
           match waitFinalExit env fuel w1 with
           | (left2, w2) =>
             if !left2 then (.running, w2)
             else (.exit (readReturnCode env w2).1, (readReturnCode env w2).2)) := by
    simp [WrapperMainProcess, SharedMemoryCreate, hc, ProcessSpawn, hs, spawnedWorld,
      ProcessWaitForExit]
  rw [h1]
  rcases waitStarted env fuel (spawnedWorld env args options w) with ⟨l1, w1⟩
  cases l1
  · simp
  · rcases h2 : waitFinalExit env fuel w1 with ⟨l2, w2⟩
    cases l2 <;> simp [h2]

theorem spawnedWorld_fields (env : Env) (args : String) (options : FBuildOptions) (w : World)
    (hc : env.createOk = true) (hs : env.spawnOk = true) :
    (spawnedWorld env args options w).trace = w.trace ++ wrapperSetup env args options ∧
    (spawnedWorld env args options w).nTryFinal = w.nTryFinal ∧
    ((∀ n s, w.trace.length + 3 ≤ n → (env.others n s).ReturnCode = s.ReturnCode) →
      (spawnedWorld env args options w).mem.ReturnCode = -7) ∧
    ((∀ n s, (env.others n s).Started = s.Started) →
      (spawnedWorld env args options w).mem.Started = false) := by
  refine ⟨?_, ?_, ?_, ?_⟩
  · simp [spawnedWorld, ProcessWaitForExit, ProcessSpawn, writeReturnCode, memsetZero,
      SharedMemoryCreate, World.step, hc, hs, wrapperSetup, FBUILD_WRAPPER_CRASHED]
  · simp [spawnedWorld, ProcessWaitForExit, ProcessSpawn, writeReturnCode, memsetZero,
      SharedMemoryCreate, World.step]
  · intro hq
    simp [spawnedWorld, ProcessWaitForExit, ProcessSpawn, writeReturnCode, memsetZero,
      SharedMemoryCreate, World.step, World.sync, FBUILD_WRAPPER_CRASHED]
    rw [hq _ _ (by omega), hq _ _ (by omega)]
  · intro hq
    simp [spawnedWorld, ProcessWaitForExit, ProcessSpawn, writeReturnCode, memsetZero,
      SharedMemoryCreate, World.step, World.sync, hq]

/-- Every run of `WrapperMainProcess`, by the way it ends. -/
theorem WrapperMainProcess_cases (env : Env) (args : String) (options : FBuildOptions)
    (fuel : Nat) (w : World) :
    (env.createOk = false ∧
      WrapperMainProcess env args options fuel w =
        (.crash, SharedMemoryCreate env options.GetSharedMemoryName w) ∧
      (WrapperMainProcess env args options fuel w).2.trace =
        w.trace ++ [.smCreate options.GetSharedMemoryName false]) ∨
    (env.createOk = true ∧ env.spawnOk = false ∧
      (WrapperMainProcess env args options fuel w).1 = .exit FBUILD_FAILED_TO_SPAWN_WRAPPER ∧
      (WrapperMainProcess env args options fuel w).2.trace =
        w.trace ++ [.smCreate options.GetSharedMemoryName true, .memset, .writeReturnCode (-7),
          .spawn options.m_ProgramName (args ++ " -wrapperintermediate")
            options.GetWorkingDir false]) ∨
    (env.createOk = true ∧ env.spawnOk = true ∧
      ∃ a : Nat,
        (WrapperMainProcess env args options fuel w).1 = .running ∧
        (WrapperMainProcess env args options fuel w).2.trace =
          w.trace ++ wrapperSetup env args options ++
            rounds a [.readStarted false, .sleep 1]) ∨
    (env.createOk = true ∧ env.spawnOk = true ∧
      ∃ a b : Nat,
        (WrapperMainProcess env args options fuel w).1 = .running ∧
        (WrapperMainProcess env args options fuel w).2.trace =
          w.trace ++ wrapperSetup env args options ++
            rounds a [.readStarted false, .sleep 1] ++ [.readStarted true] ++
            rounds b [.tryLock .finalProcess false, .sleep 1]) ∨
    (env.createOk = true ∧ env.spawnOk = true ∧
      ∃ (a b : Nat) (v : Int),
        (WrapperMainProcess env args options fuel w).1 = .exit v ∧
        v = (WrapperMainProcess env args options fuel w).2.mem.ReturnCode ∧
        ((∀ n s, w.trace.length + 3 ≤ n → (env.others n s).ReturnCode = s.ReturnCode) →
          v = -7) ∧
        (WrapperMainProcess env args options fuel w).2.trace =
          w.trace ++ wrapperSetup env args options ++
            rounds a [.readStarted false, .sleep 1] ++ [.readStarted true] ++
            rounds b [.tryLock .finalProcess false, .sleep 1] ++
            [.tryLock .finalProcess true, .readReturnCode v]) := by
  by_cases hc : env.createOk = true
  swap
  · have hc' : env.createOk = false := by simpa using hc
    refine Or.inl ⟨hc', WrapperMainProcess_unmapped env args options fuel w hc', ?_⟩
    rw [WrapperMainProcess_unmapped env args options fuel w hc']
    simp [SharedMemoryCreate, World.step, hc']
  by_cases hs : env.spawnOk = true
  swap
  · have hs' : env.spawnOk = false := by simpa using hs
    refine Or.inr (Or.inl ⟨hc, hs', ?_, ?_⟩)
    · rw [WrapperMainProcess_no_spawn env args options fuel w hc hs']
    · rw [WrapperMainProcess_no_spawn env args options fuel w hc hs']
      simp [ProcessSpawn, writeReturnCode, memsetZero, SharedMemoryCreate, World.step, hc, hs',
        FBUILD_WRAPPER_CRASHED]
  obtain ⟨st, _, sq, _⟩ := spawnedWorld_fields env args options w hc hs
  obtain ⟨a, ha, hqa, _⟩ := waitStarted_shape env fuel (spawnedWorld env args options w)
  obtain ⟨b, hb, hqb⟩ := waitFinalExit_shape env fuel
    (waitStarted env fuel (spawnedWorld env args options w)).2
  rw [st] at ha
  rw [ha] at hb
  have hrun := WrapperMainProcess_spawned env args options fuel w hc hs
  by_cases h1 : (waitStarted env fuel (spawnedWorld env args options w)).1 = true
  swap
  · rw [if_neg h1] at hrun ha
    refine Or.inr (Or.inr (Or.inl ⟨hc, hs, a, ?_, ?_⟩))
    · rw [hrun]
    · rw [hrun, ha]; simp
  rw [if_pos h1] at hrun ha hb
  by_cases h2 : (waitFinalExit env fuel
      (waitStarted env fuel (spawnedWorld env args options w)).2).1 = true
  swap
  · rw [if_neg h2] at hrun hb
    refine Or.inr (Or.inr (Or.inr (Or.inl ⟨hc, hs, a, b, ?_, ?_⟩)))
    · rw [hrun]
    · rw [hrun, hb]; simp
  rw [if_pos h2] at hrun hb
  refine Or.inr (Or.inr (Or.inr (Or.inr ⟨hc, hs, a, b,
    (readReturnCode env (waitFinalExit env fuel
      (waitStarted env fuel (spawnedWorld env args options w)).2).2).1, ?_, ?_, ?_, ?_⟩)))
  · rw [hrun]
  · rw [hrun]; rfl
  · intro hq
    have hlen1 : w.trace.length + 3 ≤ (spawnedWorld env args options w).trace.length := by
      rw [st]; simp [wrapperSetup]
    have hlen2 : w.trace.length + 3 ≤
        (waitStarted env fuel (spawnedWorld env args options w)).2.trace.length := by
      rw [ha]; simp [wrapperSetup]
    have hlen3 : w.trace.length + 3 ≤ (waitFinalExit env fuel
        (waitStarted env fuel (spawnedWorld env args options w)).2).2.trace.length := by
      rw [hb]; simp [wrapperSetup]
    show (env.others _ _).ReturnCode = -7
    rw [hq _ _ hlen3, hqb _ hq hlen2, hqa _ hq hlen1, sq hq]
  · rw [hrun]
    show (waitFinalExit env fuel (waitStarted env fuel
      (spawnedWorld env args options w)).2).2.trace ++ [_] = _
    rw [hb]
    simp [readReturnCode]

/-- The run of `Main` from line 112 on. -/
theorem Main_from_line112 (env : Env) (options : FBuildOptions) (fuel : Nat) (mem : SharedData)
    (hmode : options.m_WrapperMode ≠ .WRAPPER_MODE_INTERMEDIATE_PROCESS) :
    Main env .OPTIONS_OK options fuel mem =
      match singleInstance env options fuel (World.atLine112 env options mem) with
      | (some o, w) => (o, w)
      | (none, w) => afterSingleInstance env options fuel w := by
  simp [Main, hmode, World.atLine112]

theorem atLine112_trace (env : Env) (options : FBuildOptions) (mem : SharedData) :
    (World.atLine112 env options mem).trace = preamble options := by
  simp [World.atLine112, World.step, World.start, preamble]

theorem atLine112_counters (env : Env) (options : FBuildOptions) (mem : SharedData) :
    (World.atLine112 env options mem).nTryMain = 0 ∧
    (World.atLine112 env options mem).nTryFinal = 0 ∧
    (World.atLine112 env options mem).nStop = 0 ∧
    (World.atLine112 env options mem).mapped = false := by
  simp [World.atLine112, World.step, World.start]

theorem TryLock_main_fst (env : Env) (w : World) :
    (SystemMutex.TryLock env .mainProcess w).1 = env.tryLock .mainProcess w.nTryMain := rfl

/-- Lines 113-134 when the first `TryLock` fails. -/
theorem singleInstance_taken (env : Env) (options : FBuildOptions) (fuel : Nat) (w : World)
    (hmode : options.m_WrapperMode = .WRAPPER_MODE_NONE ∨
      options.m_WrapperMode = .WRAPPER_MODE_MAIN_PROCESS)
    (hlock : env.tryLock .mainProcess w.nTryMain = false) :
    singleInstance env options fuel w =
      if options.m_WaitMode = false then
        (some (.exit FBUILD_ALREADY_RUNNING),
          OUTPUT env (.alreadyRunning options.GetWorkingDir)
            (SystemMutex.TryLock env .mainProcess w).2)
      else
        waitMainProcess env fuel
          (OUTPUT env .waitingDueToWaitOption (SystemMutex.TryLock env .mainProcess w).2) := by
  have hc : options.m_WrapperMode = .WRAPPER_MODE_MAIN_PROCESS ∨
      options.m_WrapperMode = .WRAPPER_MODE_NONE := hmode.symm
  unfold singleInstance
  rw [if_pos hc]
  have h1 : (SystemMutex.TryLock env .mainProcess w).1 = false := by
    rw [TryLock_main_fst, hlock]
  rcases hp : SystemMutex.TryLock env .mainProcess w with ⟨b, w1⟩
  rw [hp] at h1
  simp only at h1
  subst h1
  cases hwm : options.m_WaitMode <;> simp

theorem atLine112_mem (env : Env) (options : FBuildOptions) (mem : SharedData)
    (hid : ∀ n s, env.others n s = s) : (World.atLine112 env options mem).mem = mem := by
  simp [World.atLine112, World.step, World.start, World.sync, hid]

theorem mem_preamble_kinds (options : FBuildOptions) (e : Event) (he : e ∈ preamble options) :
    e.isSegmentOp = false ∧ e.isSegmentWrite = false ∧ e.isBuildEngineOp = false ∧
    e.isProcessOp = false ∧ e.isSleep = false ∧ e.isTryLock = false := by
  simp only [preamble, List.mem_cons, List.mem_singleton, List.mem_nil_iff, or_false] at he
  rcases he with rfl | rfl | rfl | rfl | rfl | rfl <;>
    exact ⟨rfl, rfl, rfl, rfl, rfl, rfl⟩

theorem mem_finalWaitRound_kinds (ms : Nat) (e : Event) (he : e ∈ finalWaitRound ms) :
    e.isSegmentOp = false ∧ e.isSegmentWrite = false ∧ e.isBuildEngineOp = false ∧
    e.isProcessOp = false := by
  simp only [finalWaitRound, List.mem_cons, List.mem_singleton, List.mem_nil_iff,
    or_false] at he
  rcases he with rfl | rfl | rfl | rfl <;> exact ⟨rfl, rfl, rfl, rfl⟩

/-! ### The single-instance check, lines 113-134 -/

theorem instanceStep_kinds (e : Event) (h : e.isInstanceStep = true) :
    e.isProcessOp = false ∧ e.isSegmentOp = false ∧ e.isBuildEngineOp = false ∧
    (∀ r, e ≠ .tryLock .finalProcess r) := by
  cases e <;> simp [Event.isInstanceStep] at h <;>
    simp [Event.isProcessOp, Event.isSegmentOp, Event.isBuildEngineOp]
  rename_i m r
  cases m
  · simp
  · simp [Event.isInstanceStep] at h

/-- The wait loop of lines 125-132 only tries the primary mutex, sleeps and checks
the stop flag. -/
theorem waitMainProcess_kinds (env : Env) : ∀ (fuel : Nat) (w : World),
    ∀ e ∈ (waitMainProcess env fuel w).2.trace, e ∈ w.trace ∨ e.isInstanceStep = true := by
  intro fuel
  induction fuel with
  | zero =>
    intro w e he
    exact Or.inl he
  | succ f ih =>
    intro w e he
    by_cases hl : env.tryLock .mainProcess w.nTryMain = true
    · have : waitMainProcess env (f + 1) w = (none, (SystemMutex.TryLock env .mainProcess w).2) := by
        simp [waitMainProcess, SystemMutex.TryLock, hl]
      rw [this] at he
      simp [SystemMutex.TryLock, step_trace] at he
      rcases he with he | rfl
      · exact Or.inl he
      · exact Or.inr rfl
    · have hl' : env.tryLock .mainProcess w.nTryMain = false := by simpa using hl
      by_cases hs : env.stopBuild w.nStop = true
      · have : waitMainProcess env (f + 1) w = (some (.exit FBUILD_BUILD_FAILED),
            (GetStopBuild env (Sleep env 1000 (SystemMutex.TryLock env .mainProcess w).2)).2) := by
          simp [waitMainProcess, SystemMutex.TryLock, hl', GetStopBuild, Sleep, World.step, hs]
        rw [this] at he
        simp [SystemMutex.TryLock, GetStopBuild, Sleep, step_trace] at he
        rcases he with he | rfl | rfl | rfl
        · exact Or.inl he
        · exact Or.inr rfl
        · exact Or.inr rfl
        · exact Or.inr rfl
      · have hs' : env.stopBuild w.nStop = false := by simpa using hs
        have : waitMainProcess env (f + 1) w = waitMainProcess env f
            (GetStopBuild env (Sleep env 1000 (SystemMutex.TryLock env .mainProcess w).2)).2 := by
          simp [waitMainProcess, SystemMutex.TryLock, hl', GetStopBuild, Sleep, World.step, hs']
        rw [this] at he
        rcases ih _ e he with h | h
        · simp [SystemMutex.TryLock, GetStopBuild, Sleep, step_trace] at h
          rcases h with h | rfl | rfl | rfl
          · exact Or.inl h
          · exact Or.inr rfl
          · exact Or.inr rfl
          · exact Or.inr rfl
        · exact Or.inr h

/-- Lines 113-134 only try the primary mutex, print, sleep and check the stop flag. -/
theorem singleInstance_kinds (env : Env) (options : FBuildOptions) (fuel : Nat) (w : World) :
    ∀ e ∈ (singleInstance env options fuel w).2.trace, e ∈ w.trace ∨ e.isInstanceStep = true := by
  intro e he
  by_cases hmode : options.m_WrapperMode = .WRAPPER_MODE_NONE ∨
      options.m_WrapperMode = .WRAPPER_MODE_MAIN_PROCESS
  · by_cases hl : env.tryLock .mainProcess w.nTryMain = true
    · have : singleInstance env options fuel w =
          (none, (SystemMutex.TryLock env .mainProcess w).2) := by
        have hc : options.m_WrapperMode = .WRAPPER_MODE_MAIN_PROCESS ∨
            options.m_WrapperMode = .WRAPPER_MODE_NONE := hmode.symm
        simp [singleInstance, hc, SystemMutex.TryLock, hl]
      rw [this] at he
      simp [SystemMutex.TryLock, step_trace] at he
      rcases he with he | rfl
      · exact Or.inl he
      · exact Or.inr rfl
    · have hl' : env.tryLock .mainProcess w.nTryMain = false := by simpa using hl
      rw [singleInstance_taken env options fuel w hmode hl'] at he
      by_cases hw : options.m_WaitMode = false
      · rw [if_pos hw] at he
        simp [OUTPUT, SystemMutex.TryLock, step_trace] at he
        rcases he with he | rfl | rfl
        · exact Or.inl he
        · exact Or.inr rfl
        · exact Or.inr rfl
      · rw [if_neg hw] at he
        rcases waitMainProcess_kinds env fuel _ e he with h | h
        · simp [OUTPUT, SystemMutex.TryLock, step_trace] at h
          rcases h with h | rfl | rfl
          · exact Or.inl h
          · exact Or.inr rfl
          · exact Or.inr rfl
        · exact Or.inr h
  · have : singleInstance env options fuel w = (none, w) := by
      have hc : ¬ (options.m_WrapperMode = .WRAPPER_MODE_MAIN_PROCESS ∨
          options.m_WrapperMode = .WRAPPER_MODE_NONE) := fun h => hmode h.symm
      simp only [singleInstance, if_neg hc]
    rw [this] at he
    exact Or.inl he

/-- The run of `Main` in the Main role: either it ends in the single-instance
check, or it is `WrapperMainProcess` from the world that check leaves. -/
theorem Main_main_role (env : Env) (options : FBuildOptions) (fuel : Nat) (mem : SharedData)
    (hmode : options.m_WrapperMode = .WRAPPER_MODE_MAIN_PROCESS) :
    ∃ w : World,
      (∀ e ∈ w.trace, e ∈ preamble options ∨ e.isInstanceStep = true) ∧
      ((∃ o, Main env .OPTIONS_OK options fuel mem = (o, w)) ∨
       Main env .OPTIONS_OK options fuel mem =
         WrapperMainProcess env options.m_Args options fuel w) := by
  have hne : options.m_WrapperMode ≠ .WRAPPER_MODE_INTERMEDIATE_PROCESS := by simp [hmode]
  have hk := singleInstance_kinds env options fuel (World.atLine112 env options mem)
  rw [atLine112_trace] at hk
  have hrun := Main_from_line112 env options fuel mem hne
  rcases hsi : singleInstance env options fuel (World.atLine112 env options mem) with ⟨_ | o, w⟩
  · rw [hsi] at hrun hk
    refine ⟨w, hk, Or.inr ?_⟩
    rw [hrun]
    simp [afterSingleInstance, hmode]
  · rw [hsi] at hrun hk
    exact ⟨w, hk, Or.inl ⟨o, hrun⟩⟩

/-- The codes a Final-role process can write into `ReturnCode`. -/
theorem Main_final_writes (env : Env) (options : FBuildOptions) (fuel : Nat) (mem : SharedData)
    (hmode : options.m_WrapperMode = .WRAPPER_MODE_FINAL_PROCESS) (c : Int)
    (hc : Event.writeReturnCode c ∈ (Main env .OPTIONS_OK options fuel mem).2.trace) :
    c = 0 ∨ c = -1 ∨ c = -2 := by
  rw [Main_final env options fuel mem hmode] at hc
  obtain ⟨rest, hr, hk⟩ := finalTail_trace env options
    (waitFinalProcess env fuel (World.atLine112 env options mem))
  obtain ⟨a, tail, ha, _, hcase⟩ := waitFinalProcess_shape env fuel
    (World.atLine112 env options mem)
  rw [hr, ha, atLine112_trace] at hc
  simp only [List.mem_append] at hc
  rcases hc with ((hc | hc) | hc) | hc
  · have := (mem_preamble_kinds options _ hc).2.1
    simp [Event.isSegmentWrite] at this
  · have := (mem_finalWaitRound_kinds 1000 _ (mem_rounds hc)).2.1
    simp [Event.isSegmentWrite] at this
  · rcases hcase with ⟨_, rfl⟩ | ⟨_, rfl⟩ | ⟨_, rfl⟩ <;> simp at hc
  · rcases hk _ hc with h | h | h
    · cases h
    · cases h
    · simp [Event.isFBuildStep] at h
      rcases h with (h | h) | h
      · exact Or.inl h
      · exact Or.inr (Or.inl h)
      · exact Or.inr (Or.inr h)

/-- The operations made up to the end of the single-instance check are no
operation on a child process, on the segment, on the build engine or on the
final-process mutex. -/
theorem entry_kinds (options : FBuildOptions) (w : World)
    (hk : ∀ e ∈ w.trace, e ∈ preamble options ∨ e.isInstanceStep = true) :
    ∀ e ∈ w.trace, e.isProcessOp = false ∧ e.isSegmentOp = false ∧
      e.isBuildEngineOp = false ∧ (∀ r, e ≠ .tryLock .finalProcess r) := by
  intro e he
  rcases hk e he with h | h
  · have := mem_preamble_kinds options e h
    refine ⟨this.2.2.2.1, this.1, this.2.2.1, ?_⟩
    intro r hr
    rw [hr] at this
    simp [Event.isTryLock] at this
  · exact instanceStep_kinds e h

/-- Every run of the build of lines 170-228, by the way it ends. -/
theorem runFBuild_cases (env : Env) (options : FBuildOptions) (sd : Bool) (w : World) :
    (env.initOk = false ∧
      (runFBuild env options sd w).1 = .exit (-2) ∧
      (runFBuild env options sd w).2.trace =
        w.trace ++ [.fbuildInitialize false] ++
          (if sd = true then [.writeReturnCode (-2)] else []) ++ [.deregisterHandler] ∧
      (sd = true → (∀ n s, (env.others n s).ReturnCode = s.ReturnCode) →
        (runFBuild env options sd w).2.mem.ReturnCode = -2)) ∨
    (env.initOk = true ∧ options.m_DisplayTargetList = true ∧
      (runFBuild env options sd w).1 = .exit 0 ∧
      (runFBuild env options sd w).2.trace =
        w.trace ++ [.fbuildInitialize true, .displayTargetList, .deregisterHandler] ∧
      ((∀ n s, (env.others n s).ReturnCode = s.ReturnCode) →
        (runFBuild env options sd w).2.mem.ReturnCode = w.mem.ReturnCode)) ∨
    (env.initOk = true ∧ options.m_DisplayTargetList = false ∧
      ∃ (e : Event) (res : Bool),
        e.isBuildEngineOp = true ∧ e ≠ .displayTargetList ∧
        (∀ t r, e = .build t r → res = r) ∧
        (runFBuild env options sd w).1 = .exit (if res = true then 0 else -1) ∧
        (runFBuild env options sd w).2.trace =
          w.trace ++ [.fbuildInitialize true, e] ++
            (if sd = true then [.writeReturnCode (if res = true then 0 else -1)] else []) ++
            [.flogBuildTime, .deregisterHandler] ∧
        (sd = true → (∀ n s, (env.others n s).ReturnCode = s.ReturnCode) →
          (runFBuild env options sd w).2.mem.ReturnCode = (if res = true then 0 else -1))) := by
  by_cases hi : env.initOk = true
  · by_cases hl : options.m_DisplayTargetList = true
    · refine Or.inr (Or.inl ⟨hi, hl, ?_, ?_, ?_⟩)
      · rw [runFBuild_target_list env options sd w hi hl]; rfl
      · rw [runFBuild_target_list env options sd w hi hl]
        simp [step_trace]
      · intro hq
        rw [runFBuild_target_list env options sd w hi hl]
        simp [World.step, World.sync, hq]
    · have hl' : options.m_DisplayTargetList = false := by simpa using hl
      obtain ⟨e, he, hb, _, hor, hres⟩ := runSelected_step env options
        (w.step env (.fbuildInitialize true))
      refine Or.inr (Or.inr ⟨hi, hl', e,
        (runSelected env options (w.step env (.fbuildInitialize true))).1, hb, ?_, hres, ?_, ?_,
        ?_⟩)
      · intro h
        rw [h] at hor
        rcases hor with h' | h'
        · cases h'
        · rw [h] at he
          have := congrArg (fun x => x.trace) he
          revert this
          unfold runSelected
          by_cases h1 : options.m_DisplayDependencyDB = true
          · simp [h1, step_trace]
          · by_cases h2 : options.m_CacheInfo = true
            · simp [h1, h2, step_trace]
            · by_cases h3 : options.m_CacheTrim = true
              · simp [h1, h2, h3, step_trace]
              · simp [h1, h2, h3, step_trace]
      · rw [runFBuild_selected env options sd w hi hl']
        cases (runSelected env options (w.step env (.fbuildInitialize true))).1 <;>
          simp [FBUILD_OK, FBUILD_BUILD_FAILED]
      · rw [runFBuild_selected env options sd w hi hl', he]
        cases sd <;>
          cases (runSelected env options (w.step env (.fbuildInitialize true))).1 <;>
          simp [step_trace, writeReturnCode, FBUILD_OK, FBUILD_BUILD_FAILED]
      · intro hsd hq
        rw [runFBuild_selected env options sd w hi hl', he, hsd]
        cases (runSelected env options (w.step env (.fbuildInitialize true))).1 <;>
          simp [World.step, World.sync, writeReturnCode, hq, FBUILD_OK, FBUILD_BUILD_FAILED]
  · have hi' : env.initOk = false := by simpa using hi
    refine Or.inl ⟨hi', ?_, ?_, ?_⟩
    · rw [runFBuild_load_failed env options sd w hi']; rfl
    · rw [runFBuild_load_failed env options sd w hi']
      cases sd <;> simp [step_trace, writeReturnCode, FBUILD_ERROR_LOADING_BFF]
    · intro hsd hq
      rw [runFBuild_load_failed env options sd w hi', hsd]
      simp [World.step, World.sync, writeReturnCode, hq, FBUILD_ERROR_LOADING_BFF]

/-- Every run of `Main` in the Final role, up to the build: still polling, aborted
on the primary mutex, aborted on a null block, or started. -/
theorem Main_final_cases (env : Env) (options : FBuildOptions) (fuel : Nat) (mem : SharedData)
    (hmode : options.m_WrapperMode = .WRAPPER_MODE_FINAL_PROCESS) :
    ∃ a : Nat,
      ((Main env .OPTIONS_OK options fuel mem).1 = .running ∧
        (Main env .OPTIONS_OK options fuel mem).2.trace =
          preamble options ++ rounds a (finalWaitRound 1000)) ∨
      ((Main env .OPTIONS_OK options fuel mem).1 = .exit (-6) ∧
        (Main env .OPTIONS_OK options fuel mem).2.trace =
          preamble options ++ rounds a (finalWaitRound 1000) ++
            [.tryLock .finalProcess false, .output .waitingForAnother,
              .tryLock .mainProcess true]) ∨
      (env.openOk = false ∧ (Main env .OPTIONS_OK options fuel mem).1 = .exit (-6) ∧
        (Main env .OPTIONS_OK options fuel mem).2.trace =
          preamble options ++ rounds a (finalWaitRound 1000) ++
            [.tryLock .finalProcess true, .smOpen options.GetSharedMemoryName false]) ∨
      (env.openOk = true ∧ ∃ w : World,
        Main env .OPTIONS_OK options fuel mem = runFBuild env options true w ∧
        w.trace = preamble options ++ rounds a (finalWaitRound 1000) ++
          [.tryLock .finalProcess true, .smOpen options.GetSharedMemoryName true,
            .writeStarted true] ∧
        ((∀ n s, (env.others n s).ReturnCode = s.ReturnCode) →
          w.mem.ReturnCode = mem.ReturnCode)) := by
  obtain ⟨a, tail, ha, hm, hcase⟩ := waitFinalProcess_shape env fuel
    (World.atLine112 env options mem)
  rw [atLine112_trace] at ha
  have hrun := Main_final env options fuel mem hmode
  refine ⟨a, ?_⟩
  rcases hw : waitFinalProcess env fuel (World.atLine112 env options mem) with ⟨_ | o, w⟩
  · rw [hw] at ha hcase hrun
    have htail : tail = [.tryLock .finalProcess true] := by
      rcases hcase with ⟨h, _⟩ | ⟨h, _⟩ | ⟨_, h⟩
      · cases h
      · cases h
      · exact h
    subst htail
    simp only at ha
    by_cases ho : env.openOk = true
    · refine Or.inr (Or.inr (Or.inr ⟨ho, writeStarted env true
        (SharedMemoryOpen env options.GetSharedMemoryName w), ?_, ?_, ?_⟩))
      · rw [hrun]
        simp [finalTail, SharedMemoryOpen, ho]
      · simp [writeStarted, SharedMemoryOpen, step_trace, ha, ho]
      · intro hq
        have h1 := hm hq
        rw [hw] at h1
        have h2 : (World.atLine112 env options mem).mem.ReturnCode = mem.ReturnCode := by
          simp [World.atLine112, World.step, World.start, World.sync, hq]
        simp only at h1
        simp [writeStarted, SharedMemoryOpen, World.step, World.sync, hq, h1, h2]
    · have ho' : env.openOk = false := by simpa using ho
      refine Or.inr (Or.inr (Or.inl ⟨ho', ?_, ?_⟩))
      · rw [hrun]
        simp [finalTail, SharedMemoryOpen, ho', FBUILD_FAILED_TO_SPAWN_WRAPPER_FINAL]
      · rw [hrun]
        simp [finalTail, SharedMemoryOpen, ho', step_trace, ha]
  · rw [hw] at ha hcase hrun
    simp only at ha hcase
    rcases hcase with ⟨h, rfl⟩ | ⟨h, rfl⟩ | ⟨h, _⟩
    · injection h with h
      subst h
      refine Or.inl ⟨?_, ?_⟩
      · rw [hrun]; rfl
      · rw [hrun]; simpa [finalTail] using ha
    · injection h with h
      subst h
      refine Or.inr (Or.inl ⟨?_, ?_⟩)
      · rw [hrun]; rfl
      · rw [hrun]; simpa [finalTail] using ha
    · cases h

/-- A Main-role run that sees `Started` true and acquires the final-process mutex
has spawned the intermediate process and returns the `ReturnCode` of the block. -/
theorem Main_main_returned (env : Env) (options : FBuildOptions) (fuel : Nat) (mem : SharedData)
    (hM : options.m_WrapperMode = .WRAPPER_MODE_MAIN_PROCESS)
    (hstarted : Event.readStarted true ∈ (Main env .OPTIONS_OK options fuel mem).2.trace)
    (hlocked : Event.tryLock .finalProcess true ∈
      (Main env .OPTIONS_OK options fuel mem).2.trace) :
    env.spawnOk = true ∧
    (Main env .OPTIONS_OK options fuel mem).1 =
      .exit (Main env .OPTIONS_OK options fuel mem).2.mem.ReturnCode := by
  obtain ⟨w, hk, hrun⟩ := Main_main_role env options fuel mem hM
  have hkinds := entry_kinds options w hk
  have hnr : ∀ b, Event.readStarted b ∉ w.trace := by
    intro b hb
    have := (hkinds _ hb).2.1
    simp [Event.isSegmentOp] at this
  have hnl : ∀ r, Event.tryLock .finalProcess r ∉ w.trace := by
    intro r hr
    exact (hkinds _ hr).2.2.2 r rfl
  rcases hrun with ⟨o, hrun⟩ | hrun
  · rw [hrun] at hstarted
    exact absurd hstarted (hnr true)
  · rw [hrun] at hstarted hlocked ⊢
    rcases WrapperMainProcess_cases env options.m_Args options fuel w with
      ⟨_, _, ht⟩ | ⟨_, hs, _, ht⟩ | ⟨_, hs, a, _, ht⟩ | ⟨_, hs, a, b, _, ht⟩ |
      ⟨_, hs, a, b, v, hv, hm, _, ht⟩
    · rw [ht] at hstarted
      simp only [List.mem_append, List.mem_singleton] at hstarted
      rcases hstarted with h | h
      · exact absurd h (hnr true)
      · cases h
    · rw [ht] at hstarted
      simp only [List.mem_append] at hstarted
      rcases hstarted with h | h
      · exact absurd h (hnr true)
      · simp at h
    · rw [ht] at hstarted
      simp only [List.mem_append] at hstarted
      rcases hstarted with (h | h) | h
      · exact absurd h (hnr true)
      · simp [wrapperSetup] at h
      · have := mem_rounds h
        simp at this
    · rw [ht] at hlocked
      simp only [List.mem_append] at hlocked
      rcases hlocked with (((h | h) | h) | h) | h
      · exact absurd h (hnl true)
      · simp [wrapperSetup] at h
      · have := mem_rounds h
        simp at this
      · simp at h
      · have := mem_rounds h
        simp at this
    · exact ⟨hs, by rw [hv, ← hm]⟩

/-- The operations a Final-role process makes before the build are no calls into
the build engine. -/
theorem final_startup_kinds (options : FBuildOptions) (a : Nat) (tail : List Event)
    (htail : ∀ e ∈ tail, e.isBuildEngineOp = false) :
    ∀ e ∈ preamble options ++ rounds a (finalWaitRound 1000) ++ tail,
      e.isBuildEngineOp = false := by
  intro e he
  simp only [List.mem_append] at he
  rcases he with (he | he) | he
  · exact (mem_preamble_kinds options e he).2.2.1
  · exact (mem_finalWaitRound_kinds 1000 e (mem_rounds he)).2.2.1
  · exact htail e he

/-! ### When the loops of `WrapperMainProcess` are left -/

/-- When another process sets `Started` at time `T` and nobody clears it, the loop
of lines 256-259 is left, given enough iterations. -/
theorem waitStarted_leaves (env : Env) (T : Nat)
    (hset : ∀ s, (env.others T s).Started = true)
    (hkeep : ∀ n s, s.Started = true → (env.others n s).Started = true) :
    ∀ (fuel : Nat) (w : World), (w.trace.length ≤ T ∨ w.mem.Started = true) →
      0 < fuel → T < w.trace.length + fuel → (waitStarted env fuel w).1 = true := by
  intro fuel
  induction fuel with
  | zero => intro w _ h0 _; exact absurd h0 (Nat.lt_irrefl 0)
  | succ f ih =>
    intro w hinv _ hfuel
    by_cases h : (w.sync env).Started = true
    · rw [waitStarted_seen env f w h]
    · have h' : (w.sync env).Started = false := by simpa using h
      have hle : w.trace.length ≤ T := by
        rcases hinv with hle | hst
        · exact hle
        · exact absurd (hkeep _ _ hst) h
      have hlt : w.trace.length < T := by
        rcases Nat.lt_or_ge w.trace.length T with hlt | hge
        · exact hlt
        · have heq : w.trace.length = T := Nat.le_antisymm hle hge
          have : (w.sync env).Started = true := by
            unfold World.sync
            rw [heq]
            exact hset _
          exact absurd this h
      rw [waitStarted_again env f w h']
      apply ih
      · by_cases hT : w.trace.length + 1 = T
        · right
          show (env.others (w.trace ++ [Event.readStarted false]).length _).Started = true
          rw [List.length_append, List.length_singleton, hT]
          exact hset _
        · left
          simp only [step_trace, List.length_append, List.length_singleton]
          omega
      · omega
      · simp only [step_trace, List.length_append, List.length_singleton]
        omega

/-- When the final-process mutex is free at some `TryLock` to come, the loop of
lines 262-269 is left, given enough iterations. -/
theorem waitFinalExit_leaves (env : Env) : ∀ (b fuel : Nat) (w : World),
    env.tryLock .finalProcess (w.nTryFinal + b) = true → b < fuel →
    (waitFinalExit env fuel w).1 = true := by
  intro b
  induction b with
  | zero =>
    intro fuel w h hf
    obtain ⟨f, rfl⟩ : ∃ f, fuel = f + 1 := ⟨fuel - 1, by omega⟩
    rw [waitFinalExit_acquired env f w (by simpa using h)]
  | succ b ih =>
    intro fuel w h hf
    obtain ⟨f, rfl⟩ : ∃ f, fuel = f + 1 := ⟨fuel - 1, by omega⟩
    by_cases h0 : env.tryLock .finalProcess w.nTryFinal = true
    · rw [waitFinalExit_acquired env f w h0]
    · have h0' : env.tryLock .finalProcess w.nTryFinal = false := by simpa using h0
      rw [waitFinalExit_again env f w h0']
      apply ih
      · have : (Sleep env 1 (SystemMutex.TryLock env .finalProcess w).2).nTryFinal =
            w.nTryFinal + 1 := rfl
        rw [this, Nat.add_assoc, Nat.add_comm 1 b]
        exact h
      · omega

theorem WrapperMainProcess_from_line241 (env : Env) (args : String) (options : FBuildOptions)
    (fuel : Nat) (w : World) (hc : env.createOk = true) :
    WrapperMainProcess env args options fuel w =
      wrapperFromLine241 env args options fuel (sentinelWorld env options w) := by
  simp [WrapperMainProcess, wrapperFromLine241, sentinelWorld, SharedMemoryCreate, hc]

theorem sentinelWorld_fields (env : Env) (options : FBuildOptions) (w : World)
    (hc : env.createOk = true) :
    (memsetZero env (SharedMemoryCreate env options.GetSharedMemoryName w)).mem =
      { Started := false, ReturnCode := 0 } ∧
    (sentinelWorld env options w).mem =
      { env.others (w.trace.length + 2) { Started := false, ReturnCode := 0 } with
        ReturnCode := -7 } ∧
    (sentinelWorld env options w).trace =
      w.trace ++ [.smCreate options.GetSharedMemoryName true, .memset, .writeReturnCode (-7)] := by
  refine ⟨rfl, ?_, ?_⟩
  · simp [sentinelWorld, writeReturnCode, memsetZero, SharedMemoryCreate, World.step,
      World.sync, FBUILD_WRAPPER_CRASHED]
  · simp [sentinelWorld, writeReturnCode, memsetZero, SharedMemoryCreate, World.step, hc,
      FBUILD_WRAPPER_CRASHED]

/-- When another process sets `Started` at a time `T` after the block was zeroed
and nobody clears it, the block has `Started` set once the intermediate process
was waited for, unless `T` is still to come. -/
theorem spawnedWorld_started (env : Env) (args : String) (options : FBuildOptions) (w : World)
    (T : Nat) (hT : w.trace.length + 2 ≤ T)
    (hset : ∀ s, (env.others T s).Started = true)
    (hkeep : ∀ n s, s.Started = true → (env.others n s).Started = true) :
    w.trace.length + 5 ≤ T ∨ (spawnedWorld env args options w).mem.Started = true := by
  by_cases h5 : w.trace.length + 5 ≤ T
  · exact Or.inl h5
  · right
    have hmem : (spawnedWorld env args options w).mem =
        env.others (w.trace.length + 4) (env.others (w.trace.length + 3)
          { env.others (w.trace.length + 2) { Started := false, ReturnCode := 0 } with
            ReturnCode := FBUILD_WRAPPER_CRASHED }) := by
      simp [spawnedWorld, ProcessWaitForExit, ProcessSpawn, writeReturnCode, memsetZero,
        SharedMemoryCreate, World.step, World.sync]
    rw [hmem]
    rcases (by omega : T = w.trace.length + 2 ∨ T = w.trace.length + 3 ∨
      T = w.trace.length + 4) with h | h | h
    · apply hkeep
      apply hkeep
      show (env.others (w.trace.length + 2) _).Started = true
      rw [← h]
      exact hset _
    · apply hkeep
      rw [← h]
      exact hset _
    · rw [← h]
      exact hset _

/-! ## The single-instance policy -/

/-- C3. In mode None or Main, with the command line parsed, the first `TryLock` on
the primary instance mutex failing and the wait flag off, `Main` returns -4
(`FBUILD_ALREADY_RUNNING`), whatever the number of loop iterations observed, and
all it has done is: register the handler, parse, unbuffer the output, construct
the two mutexes, make that one `TryLock`, print the message. So it makes no
sleep, one `TryLock` in all, no segment operation, no child-process operation
and no build-engine call. -/
theorem Main_already_running (env : Env) (options : FBuildOptions) (fuel : Nat)
    (mem : SharedData)
    (hmode : options.m_WrapperMode = .WRAPPER_MODE_NONE ∨
      options.m_WrapperMode = .WRAPPER_MODE_MAIN_PROCESS)
    (hlock : env.tryLock .mainProcess 0 = false)
    (hwait : options.m_WaitMode = false) :
    (Main env .OPTIONS_OK options fuel mem).1 = .exit (-4) ∧
    FBUILD_ALREADY_RUNNING = -4 ∧
    (Main env .OPTIONS_OK options fuel mem).2.trace =
      preamble options ++
        [.tryLock .mainProcess false, .output (.alreadyRunning options.GetWorkingDir)] ∧
    ((Main env .OPTIONS_OK options fuel mem).2.trace.filter Event.isTryLock).length = 1 ∧
    ∀ e ∈ (Main env .OPTIONS_OK options fuel mem).2.trace,
      e.isSleep = false ∧ e.isSegmentOp = false ∧ e.isProcessOp = false ∧
      e.isBuildEngineOp = false := by
  have hne : options.m_WrapperMode ≠ .WRAPPER_MODE_INTERMEDIATE_PROCESS := by
    rcases hmode with h | h <;> simp [h]
  obtain ⟨c1, c2, c3, c4⟩ := atLine112_counters env options mem
  have hrun : Main env .OPTIONS_OK options fuel mem =
      (.exit (-4), OUTPUT env (.alreadyRunning options.GetWorkingDir)
        (SystemMutex.TryLock env .mainProcess (World.atLine112 env options mem)).2) := by
    rw [Main_from_line112 env options fuel mem hne,
      singleInstance_taken env options fuel _ hmode (by rw [c1]; exact hlock), if_pos hwait]
    rfl
  have htrace : (Main env .OPTIONS_OK options fuel mem).2.trace =
      preamble options ++
        [.tryLock .mainProcess false, .output (.alreadyRunning options.GetWorkingDir)] := by
    rw [hrun]
    simp [OUTPUT, SystemMutex.TryLock, World.step, c1, hlock, atLine112_trace]
  refine ⟨by rw [hrun], rfl, htrace, ?_, ?_⟩
  · rw [htrace]; simp [preamble, Event.isTryLock, List.filter]
  · rw [htrace]
    intro e he
    simp [preamble] at he
    rcases he with rfl | rfl | rfl | rfl | rfl | rfl | rfl | rfl <;>
      simp [Event.isSleep, Event.isSegmentOp, Event.isProcessOp, Event.isBuildEngineOp]

/-- A run to which C3 applies: mode None, no wait, the mutex taken. -/
theorem Main_already_running_witness :
    (Main busyEnv .OPTIONS_OK (sampleOptions .WRAPPER_MODE_NONE false) 0
      { Started := false, ReturnCode := 0 }).1 = .exit (-4) :=
  (Main_already_running busyEnv (sampleOptions .WRAPPER_MODE_NONE false) 0
    { Started := false, ReturnCode := 0 } (Or.inl rfl) rfl rfl).1

/-- C4. In mode None or Main with the wait flag set, when the first `TryLock` on
the primary instance mutex fails, `Main` prints the waiting message and polls:
every failed `TryLock` of the poll is followed by `Sleep( 1000 )` and then by a
check of the stop flag. Let round `j` be the first at which the `TryLock`
succeeds or, failing that, the stop flag is found set, and let at least `j + 1`
iterations be observed. If the `TryLock` of round `j` fails (so the stop flag is
set there), `Main` returns -1 (`FBUILD_BUILD_FAILED`), no `TryLock` has returned
true, and there was no build-engine, child-process or segment operation.
Otherwise `Main` leaves the loop at that first successful `TryLock` and goes on
with `WrapperMainProcess` (mode Main) or with the build (mode None). -/
theorem Main_wait_for_instance (env : Env) (options : FBuildOptions) (fuel : Nat)
    (mem : SharedData) (j : Nat)
    (hmode : options.m_WrapperMode = .WRAPPER_MODE_NONE ∨
      options.m_WrapperMode = .WRAPPER_MODE_MAIN_PROCESS)
    (hwait : options.m_WaitMode = true)
    (hfirst : env.tryLock .mainProcess 0 = false)
    (hrounds : ∀ i, i < j →
      env.tryLock .mainProcess (i + 1) = false ∧ env.stopBuild i = false)
    (hend : env.tryLock .mainProcess (j + 1) = true ∨ env.stopBuild j = true)
    (hfuel : j < fuel) :
    ∃ w : World,
      w.trace = preamble options ++
        [.tryLock .mainProcess false, .output .waitingDueToWaitOption] ++
        rounds j [.tryLock .mainProcess false, .sleep 1000, .getStopBuild false] ++
        (if env.tryLock .mainProcess (j + 1) = true then [.tryLock .mainProcess true]
         else [.tryLock .mainProcess false, .sleep 1000, .getStopBuild true]) ∧
      Main env .OPTIONS_OK options fuel mem =
        (if env.tryLock .mainProcess (j + 1) = true then
          (if options.m_WrapperMode = .WRAPPER_MODE_MAIN_PROCESS then
            WrapperMainProcess env options.m_Args options fuel w
           else runFBuild env options false w)
         else (.exit (-1), w)) ∧
      (env.tryLock .mainProcess (j + 1) = false →
        FBUILD_BUILD_FAILED = -1 ∧
        Event.tryLock .mainProcess true ∉ w.trace ∧
        ∀ e ∈ w.trace, e.isBuildEngineOp = false ∧ e.isProcessOp = false ∧
          e.isSegmentOp = false) := by
  have hne : options.m_WrapperMode ≠ .WRAPPER_MODE_INTERMEDIATE_PROCESS := by
    rcases hmode with h | h <;> simp [h]
  obtain ⟨c1, c2, c3, c4⟩ := atLine112_counters env options mem
  have hn1 : (OUTPUT env .waitingDueToWaitOption
      (SystemMutex.TryLock env .mainProcess (World.atLine112 env options mem)).2).nTryMain = 1 := by
    simp [OUTPUT, SystemMutex.TryLock, World.step, c1]
  have hn2 : (OUTPUT env .waitingDueToWaitOption
      (SystemMutex.TryLock env .mainProcess (World.atLine112 env options mem)).2).nStop = 0 := by
    simp [OUTPUT, SystemMutex.TryLock, World.step, c3]
  have hn3 : (OUTPUT env .waitingDueToWaitOption
      (SystemMutex.TryLock env .mainProcess (World.atLine112 env options mem)).2).trace =
      preamble options ++ [.tryLock .mainProcess false, .output .waitingDueToWaitOption] := by
    simp [OUTPUT, SystemMutex.TryLock, World.step, c1, hfirst, atLine112_trace]
  have hn4 : (OUTPUT env .waitingDueToWaitOption
      (SystemMutex.TryLock env .mainProcess (World.atLine112 env options mem)).2).mapped =
      false := by
    simp [OUTPUT, SystemMutex.TryLock, World.step, c4]
  obtain ⟨w, ht, hm, hw⟩ := waitMainProcess_rounds env j fuel
    (OUTPUT env .waitingDueToWaitOption
      (SystemMutex.TryLock env .mainProcess (World.atLine112 env options mem)).2) hfuel
    (by
      intro i hi
      rw [hn1, hn2, Nat.add_comm 1 i, Nat.zero_add]
      exact hrounds i hi)
    (by
      rw [hn1, hn2, Nat.add_comm 1 j, Nat.zero_add]
      exact hend)
  rw [hn1, Nat.add_comm 1 j] at hw
  rw [hn1, hn3, Nat.add_comm 1 j] at ht
  rw [hn4] at hm
  have htrace : w.trace = preamble options ++
        [.tryLock .mainProcess false, .output .waitingDueToWaitOption] ++
        rounds j [.tryLock .mainProcess false, .sleep 1000, .getStopBuild false] ++
        (if env.tryLock .mainProcess (j + 1) = true then [.tryLock .mainProcess true]
         else [.tryLock .mainProcess false, .sleep 1000, .getStopBuild true]) := ht
  have hwm : ¬ options.m_WaitMode = false := by simp [hwait]
  refine ⟨w, htrace, ?_, ?_⟩
  · rw [Main_from_line112 env options fuel mem hne,
      singleInstance_taken env options fuel _ hmode (by rw [c1]; exact hfirst), if_neg hwm, hw]
    by_cases hl : env.tryLock .mainProcess (j + 1) = true
    · simp only [hl, if_true]
      rcases hmode with h | h
      · simp [afterSingleInstance, finalStartup, h, hm]
      · simp [afterSingleInstance, h]
    · simp only [hl, if_false]
      rfl
  · intro hl
    rw [htrace]
    simp only [hl, Bool.false_eq_true, if_false]
    refine ⟨rfl, ?_, ?_⟩
    · intro hmem
      simp only [List.mem_append] at hmem
      rcases hmem with ((hmem | hmem) | hmem) | hmem
      · simp [preamble] at hmem
      · simp at hmem
      · have := mem_rounds hmem
        simp at this
      · simp at hmem
    · intro e he
      simp only [List.mem_append] at he
      rcases he with ((he | he) | he) | he
      · simp [preamble] at he
        rcases he with rfl | rfl | rfl | rfl | rfl | rfl <;>
          simp [Event.isSegmentOp, Event.isProcessOp, Event.isBuildEngineOp]
      · simp at he
        rcases he with rfl | rfl <;>
          simp [Event.isSegmentOp, Event.isProcessOp, Event.isBuildEngineOp]
      · have := mem_rounds he
        simp at this
        rcases this with rfl | rfl | rfl <;>
          simp [Event.isSegmentOp, Event.isProcessOp, Event.isBuildEngineOp]
      · simp at he
        rcases he with rfl | rfl | rfl <;>
          simp [Event.isSegmentOp, Event.isProcessOp, Event.isBuildEngineOp]

/-- Two runs to which C4 applies: one interrupted at the third check of the stop
flag, one that acquires the mutex at the fourth `TryLock` and builds. -/
theorem Main_wait_for_instance_witness :
    (Main interruptedEnv .OPTIONS_OK (sampleOptions .WRAPPER_MODE_NONE true) 3
      { Started := false, ReturnCode := 0 }).1 = .exit (-1) ∧
    (Main releasedLaterEnv .OPTIONS_OK (sampleOptions .WRAPPER_MODE_NONE true) 3
      { Started := false, ReturnCode := 0 }).1 = .exit 0 := by
  constructor
  · obtain ⟨w, _, hrun, _⟩ := Main_wait_for_instance interruptedEnv
      (sampleOptions .WRAPPER_MODE_NONE true) 3 { Started := false, ReturnCode := 0 } 2
      (Or.inl rfl) rfl rfl
      (by intro i hi; simp [interruptedEnv, quietEnv]; omega)
      (Or.inr (by simp [interruptedEnv])) (by omega)
    rw [hrun]
    simp [interruptedEnv]
  · obtain ⟨w, _, hrun, _⟩ := Main_wait_for_instance releasedLaterEnv
      (sampleOptions .WRAPPER_MODE_NONE true) 3 { Started := false, ReturnCode := 0 } 2
      (Or.inl rfl) rfl (by simp [releasedLaterEnv])
      (by intro i hi; simp [releasedLaterEnv, quietEnv]; omega)
      (Or.inl (by simp [releasedLaterEnv])) (by omega)
    rw [hrun]
    simp [releasedLaterEnv, sampleOptions, runFBuild, runSelected, quietEnv, FBUILD_OK]

/-! ## The intermediate role -/

/-- C8. With wrapper mode Intermediate and the command line parsed, `Main` makes
exactly one spawn, of the program with the forwarded arguments followed by
" -wrapperfinal"; it returns -6 (`FBUILD_FAILED_TO_SPAWN_WRAPPER_FINAL`) if and
only if that spawn fails, and otherwise detaches the child and returns 0. The
whole run is: register the handler, parse, spawn, and detach on success; so no
mutex is constructed or tried, no segment is touched and the child is never
waited for. This holds whatever the number of loop iterations observed. -/
theorem Main_intermediate (env : Env) (options : FBuildOptions) (fuel : Nat) (mem : SharedData)
    (hmode : options.m_WrapperMode = .WRAPPER_MODE_INTERMEDIATE_PROCESS) :
    (Main env .OPTIONS_OK options fuel mem).1 = .exit (if env.spawnOk = true then 0 else -6) ∧
    ((Main env .OPTIONS_OK options fuel mem).1 = .exit (-6) ↔ env.spawnOk = false) ∧
    FBUILD_FAILED_TO_SPAWN_WRAPPER_FINAL = -6 ∧
    (Main env .OPTIONS_OK options fuel mem).2.trace =
      [.ctrlCRegister, .processCommandLine .OPTIONS_OK,
       .spawn options.m_ProgramName (options.m_Args ++ " -wrapperfinal") options.GetWorkingDir
         env.spawnOk] ++ (if env.spawnOk = true then [.detach] else []) ∧
    ∀ e ∈ (Main env .OPTIONS_OK options fuel mem).2.trace,
      e.isMutexOp = false ∧ e.isSegmentOp = false ∧ (∀ c, e ≠ .waitForExit c) := by
  cases hs : env.spawnOk
  · have hrun : Main env .OPTIONS_OK options fuel mem =
        (.exit (-6), World.step env (.spawn options.m_ProgramName
          (options.m_Args ++ " -wrapperfinal") options.GetWorkingDir false)
          (World.step env (.processCommandLine .OPTIONS_OK)
            (World.step env .ctrlCRegister (World.start mem)))) := by
      simp [Main, hmode, WrapperIntermediateProcess, ProcessSpawn, hs,
        FBUILD_FAILED_TO_SPAWN_WRAPPER_FINAL]
    rw [hrun]
    refine ⟨by simp, by simp, rfl, by simp [World.step, World.start], ?_⟩
    intro e he
    simp [World.step, World.start] at he
    rcases he with rfl | rfl | rfl <;> simp [Event.isMutexOp, Event.isSegmentOp]
  · have hrun : Main env .OPTIONS_OK options fuel mem =
        (.exit 0, World.step env .detach (World.step env (.spawn options.m_ProgramName
          (options.m_Args ++ " -wrapperfinal") options.GetWorkingDir true)
          (World.step env (.processCommandLine .OPTIONS_OK)
            (World.step env .ctrlCRegister (World.start mem))))) := by
      simp [Main, hmode, WrapperIntermediateProcess, ProcessSpawn, hs, ProcessDetach, FBUILD_OK]
    rw [hrun]
    refine ⟨by simp, by simp, rfl, by simp [World.step, World.start], ?_⟩
    intro e he
    simp [World.step, World.start] at he
    rcases he with rfl | rfl | rfl | rfl <;> simp [Event.isMutexOp, Event.isSegmentOp]

/-- Two runs to which C8 applies: the spawn succeeds, the spawn fails. -/
theorem Main_intermediate_witness :
    (Main quietEnv .OPTIONS_OK (sampleOptions .WRAPPER_MODE_INTERMEDIATE_PROCESS false) 0
      { Started := false, ReturnCode := 0 }).1 = .exit 0 ∧
    (Main noSpawnEnv .OPTIONS_OK (sampleOptions .WRAPPER_MODE_INTERMEDIATE_PROCESS false) 0
      { Started := false, ReturnCode := 0 }).1 = .exit (-6) :=
  ⟨(Main_intermediate quietEnv (sampleOptions .WRAPPER_MODE_INTERMEDIATE_PROCESS false) 0
      { Started := false, ReturnCode := 0 } rfl).1,
   (Main_intermediate noSpawnEnv (sampleOptions .WRAPPER_MODE_INTERMEDIATE_PROCESS false) 0
      { Started := false, ReturnCode := 0 } rfl).1⟩

/-! ## The Final role: acquiring the final-process mutex -/

/-- C7. In the Final role, let the first `j` rounds of the acquisition loop fail
on both mutexes, let round `j` end the loop, and let at least `j + 1` iterations
be observed. Every failed `TryLock` on the final-process mutex is followed (after
the message) by one `TryLock` on the primary mutex. (a) If in round `j` the
`TryLock` on the final-process mutex fails and the one on the primary mutex
succeeds, `Main` returns -6 and has made no segment operation at all. (b) If
the final-process mutex is acquired and the opened block is null, `Main` returns
-6. In both cases the run has no write to the segment and no build-engine call,
and the block is as it was when nobody else changes it. Otherwise `Main` sets
`Started` and goes on with the build. -/
theorem Main_final_abort (env : Env) (options : FBuildOptions) (fuel : Nat) (mem : SharedData)
    (j : Nat)
    (hmode : options.m_WrapperMode = .WRAPPER_MODE_FINAL_PROCESS)
    (hrounds : ∀ i, i < j →
      env.tryLock .finalProcess i = false ∧ env.tryLock .mainProcess i = false)
    (hend : env.tryLock .finalProcess j = true ∨ env.tryLock .mainProcess j = true)
    (hfuel : j < fuel) :
    ∃ w : World,
      w.trace = preamble options ++
        rounds j [.tryLock .finalProcess false, .output .waitingForAnother,
          .tryLock .mainProcess false, .sleep 1000] ++
        (if env.tryLock .finalProcess j = true then
          [.tryLock .finalProcess true, .smOpen options.GetSharedMemoryName env.openOk] ++
            (if env.openOk = true then [.writeStarted true] else [])
         else [.tryLock .finalProcess false, .output .waitingForAnother,
          .tryLock .mainProcess true]) ∧
      Main env .OPTIONS_OK options fuel mem =
        (if env.tryLock .finalProcess j = true ∧ env.openOk = true then
          runFBuild env options true w
         else (.exit (-6), w)) ∧
      FBUILD_FAILED_TO_SPAWN_WRAPPER_FINAL = -6 ∧
      (¬ (env.tryLock .finalProcess j = true ∧ env.openOk = true) →
        (∀ e ∈ w.trace, e.isSegmentWrite = false ∧ e.isBuildEngineOp = false) ∧
        ((∀ n s, env.others n s = s) → w.mem = mem)) ∧
      (env.tryLock .finalProcess j = false → ∀ e ∈ w.trace, e.isSegmentOp = false) := by
  obtain ⟨c1, c2, c3, c4⟩ := atLine112_counters env options mem
  obtain ⟨r1, r2, r3, r4, r5, r6⟩ := waitFinalProcess_rounds env j fuel
    (World.atLine112 env options mem) (Nat.le_of_lt hfuel)
    (by
      intro i hi
      rw [c1, c2, Nat.zero_add]
      exact hrounds i hi)
  rw [c2, Nat.zero_add] at r2
  rw [c1, Nat.zero_add] at r3
  rw [atLine112_trace] at r1
  obtain ⟨f, hf⟩ : ∃ f, fuel - j = f + 1 := ⟨fuel - j - 1, by omega⟩
  rw [hf] at r6
  have hmain := Main_final env options fuel mem hmode
  rw [r6] at hmain
  by_cases h1 : env.tryLock .finalProcess j = true
  · rw [waitFinalProcess_acquired env f _ (by rw [r2]; exact h1)] at hmain
    by_cases h2 : env.openOk = true
    · refine ⟨writeStarted env true (SharedMemoryOpen env options.GetSharedMemoryName
        (SystemMutex.TryLock env .finalProcess
          (finalRoundsWorld env j (World.atLine112 env options mem))).2), ?_, ?_, rfl, ?_, ?_⟩
      · simp [writeStarted, SharedMemoryOpen, SystemMutex.TryLock, World.step, r1, r2, h1, h2,
          finalWaitRound]
      · rw [hmain]
        simp [finalTail, SharedMemoryOpen, h1, h2]
      · intro hn
        exact absurd ⟨h1, h2⟩ hn
      · intro hn
        rw [h1] at hn
        cases hn
    · have h2' : env.openOk = false := by simpa using h2
      have htr : (SharedMemoryOpen env options.GetSharedMemoryName
          (SystemMutex.TryLock env .finalProcess
            (finalRoundsWorld env j (World.atLine112 env options mem))).2).trace =
          preamble options ++ rounds j (finalWaitRound 1000) ++
            [.tryLock .finalProcess true, .smOpen options.GetSharedMemoryName false] := by
        simp [SharedMemoryOpen, SystemMutex.TryLock, World.step, r1, r2, h1, h2']
      refine ⟨SharedMemoryOpen env options.GetSharedMemoryName
        (SystemMutex.TryLock env .finalProcess
          (finalRoundsWorld env j (World.atLine112 env options mem))).2, ?_, ?_, rfl, ?_, ?_⟩
      · rw [htr]
        simp [h1, h2', finalWaitRound]
      · rw [hmain]
        simp [finalTail, SharedMemoryOpen, h2', FBUILD_FAILED_TO_SPAWN_WRAPPER_FINAL]
      · intro _
        constructor
        · intro e he
          rw [htr] at he
          simp only [List.mem_append] at he
          rcases he with (he | he) | he
          · exact ⟨(mem_preamble_kinds options e he).2.1, (mem_preamble_kinds options e he).2.2.1⟩
          · have := mem_finalWaitRound_kinds 1000 e (mem_rounds he)
            exact ⟨this.2.1, this.2.2.1⟩
          · simp only [List.mem_cons, List.mem_singleton, List.mem_nil_iff, or_false] at he
            rcases he with rfl | rfl <;> exact ⟨rfl, rfl⟩
        · intro hid
          have := r5 hid
          rw [atLine112_mem env options mem hid] at this
          simp [SharedMemoryOpen, SystemMutex.TryLock, World.step, World.sync, hid, this]
      · intro hn
        rw [h1] at hn
        cases hn
  · have h1' : env.tryLock .finalProcess j = false := by simpa using h1
    have h2 : env.tryLock .mainProcess j = true := by
      rcases hend with h | h
      · exact absurd h h1
      · exact h
    rw [waitFinalProcess_abort env f _ (by rw [r2]; exact h1') (by rw [r3]; exact h2)] at hmain
    have htr : (SystemMutex.TryLock env .mainProcess (OUTPUT env .waitingForAnother
        (SystemMutex.TryLock env .finalProcess
          (finalRoundsWorld env j (World.atLine112 env options mem))).2)).2.trace =
        preamble options ++ rounds j (finalWaitRound 1000) ++
          [.tryLock .finalProcess false, .output .waitingForAnother,
            .tryLock .mainProcess true] := by
      simp [OUTPUT, SystemMutex.TryLock, World.step, r1, r2, r3, h1', h2]
    have hkinds : ∀ e ∈ (SystemMutex.TryLock env .mainProcess (OUTPUT env .waitingForAnother
        (SystemMutex.TryLock env .finalProcess
          (finalRoundsWorld env j (World.atLine112 env options mem))).2)).2.trace,
        e.isSegmentOp = false ∧ e.isSegmentWrite = false ∧ e.isBuildEngineOp = false := by
      intro e he
      rw [htr] at he
      simp only [List.mem_append] at he
      rcases he with (he | he) | he
      · have := mem_preamble_kinds options e he
        exact ⟨this.1, this.2.1, this.2.2.1⟩
      · have := mem_finalWaitRound_kinds 1000 e (mem_rounds he)
        exact ⟨this.1, this.2.1, this.2.2.1⟩
      · simp only [List.mem_cons, List.mem_singleton, List.mem_nil_iff, or_false] at he
        rcases he with rfl | rfl | rfl <;> exact ⟨rfl, rfl, rfl⟩
    refine ⟨(SystemMutex.TryLock env .mainProcess (OUTPUT env .waitingForAnother
        (SystemMutex.TryLock env .finalProcess
          (finalRoundsWorld env j (World.atLine112 env options mem))).2)).2, ?_, ?_, rfl, ?_, ?_⟩
    rotate_left
    · rw [hmain]
      simp [finalTail, h1', FBUILD_FAILED_TO_SPAWN_WRAPPER_FINAL]
    · intro _
      constructor
      · intro e he
        exact ⟨(hkinds e he).2.1, (hkinds e he).2.2⟩
      · intro hid
        have := r5 hid
        rw [atLine112_mem env options mem hid] at this
        simp [OUTPUT, SystemMutex.TryLock, World.step, World.sync, hid, this]
    · intro _ e he
      exact (hkinds e he).1
    · rw [htr]
      simp [h1', finalWaitRound]

/-- Two runs to which C7 applies: (a) the primary mutex is acquired at the second
round, (b) the final-process mutex is acquired at the second round and the block
is null. Both return -6. -/
theorem Main_final_abort_witness :
    (Main mainGoneEnv .OPTIONS_OK (sampleOptions .WRAPPER_MODE_FINAL_PROCESS false) 2
      { Started := false, ReturnCode := -7 }).1 = .exit (-6) ∧
    (Main noSegmentEnv .OPTIONS_OK (sampleOptions .WRAPPER_MODE_FINAL_PROCESS false) 2
      { Started := false, ReturnCode := -7 }).1 = .exit (-6) := by
  constructor
  · obtain ⟨w, _, hrun, _⟩ := Main_final_abort mainGoneEnv
      (sampleOptions .WRAPPER_MODE_FINAL_PROCESS false) 2 { Started := false, ReturnCode := -7 } 1
      rfl (by intro i hi; simp [mainGoneEnv, quietEnv]; omega)
      (Or.inr (by simp [mainGoneEnv])) (by omega)
    rw [hrun]
    simp [mainGoneEnv]
  · obtain ⟨w, _, hrun, _⟩ := Main_final_abort noSegmentEnv
      (sampleOptions .WRAPPER_MODE_FINAL_PROCESS false) 2 { Started := false, ReturnCode := -7 } 1
      rfl (by intro i hi; simp [noSegmentEnv, finalFreeLaterEnv, quietEnv]; omega)
      (Or.inl (by simp [noSegmentEnv, finalFreeLaterEnv])) (by omega)
    rw [hrun]
    simp [noSegmentEnv, finalFreeLaterEnv, quietEnv]

/-- C10, as the code has it. In the Final role, when the first `j` rounds of the
acquisition loop fail on both mutexes and more than `j` iterations are observed,
each of these rounds ends with `Sleep( 1000 )`, a sleep of 1000 milliseconds, and
the next operation is the next `TryLock` on the final-process mutex. The interval
is the 1000 ms of the single-instance wait loop, not a finer one. -/
theorem Main_final_poll_interval (env : Env) (options : FBuildOptions) (fuel : Nat)
    (mem : SharedData) (j : Nat)
    (hmode : options.m_WrapperMode = .WRAPPER_MODE_FINAL_PROCESS)
    (hrounds : ∀ i, i < j →
      env.tryLock .finalProcess i = false ∧ env.tryLock .mainProcess i = false)
    (hfuel : j < fuel) :
    ∃ rest : List Event,
      (Main env .OPTIONS_OK options fuel mem).2.trace =
        preamble options ++
        rounds j [.tryLock .finalProcess false, .output .waitingForAnother,
          .tryLock .mainProcess false, .sleep 1000] ++
        .tryLock .finalProcess (env.tryLock .finalProcess j) :: rest := by
  obtain ⟨c1, c2, c3, c4⟩ := atLine112_counters env options mem
  obtain ⟨r1, r2, r3, r4, r5, r6⟩ := waitFinalProcess_rounds env j fuel
    (World.atLine112 env options mem) (Nat.le_of_lt hfuel)
    (by
      intro i hi
      rw [c1, c2, Nat.zero_add]
      exact hrounds i hi)
  rw [c2, Nat.zero_add] at r2
  rw [atLine112_trace] at r1
  obtain ⟨f, hf⟩ : ∃ f, fuel - j = f + 1 := ⟨fuel - j - 1, by omega⟩
  rw [hf] at r6
  obtain ⟨rest1, h1⟩ := waitFinalProcess_first env f
    (finalRoundsWorld env j (World.atLine112 env options mem))
  obtain ⟨rest2, h2, _⟩ := finalTail_trace env options
    (waitFinalProcess env (f + 1) (finalRoundsWorld env j (World.atLine112 env options mem)))
  refine ⟨rest1 ++ rest2, ?_⟩
  rw [Main_final env options fuel mem hmode, r6, h2, h1, r1, r2]
  simp [finalWaitRound]

/-- A run to which the amended C10 applies: one failed round, then the mutex. -/
theorem Main_final_poll_interval_witness :
    ∃ rest : List Event,
      (Main finalFreeLaterEnv .OPTIONS_OK (sampleOptions .WRAPPER_MODE_FINAL_PROCESS false) 2
        { Started := false, ReturnCode := -7 }).2.trace =
        preamble (sampleOptions .WRAPPER_MODE_FINAL_PROCESS false) ++
        rounds 1 [.tryLock .finalProcess false, .output .waitingForAnother,
          .tryLock .mainProcess false, .sleep 1000] ++
        .tryLock .finalProcess (finalFreeLaterEnv.tryLock .finalProcess 1) :: rest :=
  Main_final_poll_interval finalFreeLaterEnv (sampleOptions .WRAPPER_MODE_FINAL_PROCESS false) 2
    { Started := false, ReturnCode := -7 } 1 rfl
    (by intro i hi; simp [finalFreeLaterEnv, quietEnv]; omega) (by omega)

/-- C10 as stated fails. In this Final-role run the first `TryLock` on the
final-process mutex fails and so does the following one on the primary mutex;
the process then sleeps 1000 ms, not 1 ms, before its next `TryLock` on the
final-process mutex, and no sleep of 1 ms occurs in the whole run. -/
theorem Main_final_poll_interval_counterexample :
    finalFreeLaterEnv.tryLock .finalProcess 0 = false ∧
    finalFreeLaterEnv.tryLock .mainProcess 0 = false ∧
    (Main finalFreeLaterEnv .OPTIONS_OK (sampleOptions .WRAPPER_MODE_FINAL_PROCESS false) 2
      { Started := false, ReturnCode := -7 }).2.trace =
      [.ctrlCRegister, .processCommandLine .OPTIONS_OK, .setvbuf, .setvbuf,
       .mutexConstruct .mainProcess "main-mutex", .mutexConstruct .finalProcess "final-mutex",
       .tryLock .finalProcess false, .output .waitingForAnother, .tryLock .mainProcess false,
       .sleep 1000,
       .tryLock .finalProcess true, .smOpen "shm" true, .writeStarted true,
       .fbuildInitialize true, .build ["all"] true, .writeReturnCode 0, .flogBuildTime,
       .deregisterHandler] ∧
    Event.sleep 1 ∉
      (Main finalFreeLaterEnv .OPTIONS_OK (sampleOptions .WRAPPER_MODE_FINAL_PROCESS false) 2
        { Started := false, ReturnCode := -7 }).2.trace := by
  decide

/-! ## The Main role: `WrapperMainProcess` -/

/-- C9. Every run of `WrapperMainProcess` that returns a value read from the
segment (the spawn succeeded and the function returned `v`) consists of, in this
order: the creation of the block, its zeroing, the write of the sentinel, the
spawn of the intermediate process, the wait for its exit; then a number of
rounds, each a read of `Started` that yields false followed by `Sleep( 1 )`;
then the read of `Started` that yields true; then a number of rounds, each a
failed `TryLock` on the final-process mutex followed by `Sleep( 1 )`; then the
`TryLock` that returns true; then the one read of `ReturnCode`, which yields `v`.
So `ReturnCode` is not read before the successful `TryLock`, the final-process
mutex is not tried before `Started` was seen true, and every failed poll is
followed by a sleep of 1 ms. -/
theorem WrapperMainProcess_order (env : Env) (args : String) (options : FBuildOptions)
    (fuel : Nat) (w : World) (v : Int)
    (hspawn : env.spawnOk = true)
    (hret : (WrapperMainProcess env args options fuel w).1 = .exit v) :
    ∃ a b : Nat,
      (WrapperMainProcess env args options fuel w).2.trace =
        w.trace ++
        [.smCreate options.GetSharedMemoryName true, .memset, .writeReturnCode (-7),
         .spawn options.m_ProgramName (args ++ " -wrapperintermediate")
           options.GetWorkingDir true,
         .waitForExit env.childExit] ++
        rounds a [.readStarted false, .sleep 1] ++ [.readStarted true] ++
        rounds b [.tryLock .finalProcess false, .sleep 1] ++
        [.tryLock .finalProcess true, .readReturnCode v] := by
  rcases WrapperMainProcess_cases env args options fuel w with
    ⟨_, h, _⟩ | ⟨_, h, _⟩ | ⟨_, _, a, h, _⟩ | ⟨_, _, a, b, h, _⟩ | ⟨_, _, a, b, v', h, _, _, ht⟩
  · rw [h] at hret; cases hret
  · rw [hspawn] at h; cases h
  · rw [h] at hret; cases hret
  · rw [h] at hret; cases hret
  · rw [h] at hret
    injection hret with hv
    subst hv
    exact ⟨a, b, ht⟩

/-- A run to which C9 applies: `Started` is seen true at the eighth read, the
final-process mutex is acquired at the second `TryLock`, and the value read is
the sentinel. -/
theorem WrapperMainProcess_order_witness :
    ∃ a b : Nat,
      (WrapperMainProcess startedLaterEnv "-cache all"
        (sampleOptions .WRAPPER_MODE_MAIN_PROCESS false) 9
        (World.start { Started := false, ReturnCode := 0 })).2.trace =
        (World.start { Started := false, ReturnCode := 0 }).trace ++
        [.smCreate "shm" true, .memset, .writeReturnCode (-7),
         .spawn "fbuild" ("-cache all" ++ " -wrapperintermediate") "/work" true,
         .waitForExit startedLaterEnv.childExit] ++
        rounds a [.readStarted false, .sleep 1] ++ [.readStarted true] ++
        rounds b [.tryLock .finalProcess false, .sleep 1] ++
        [.tryLock .finalProcess true, .readReturnCode (-7)] :=
  WrapperMainProcess_order startedLaterEnv "-cache all"
    (sampleOptions .WRAPPER_MODE_MAIN_PROCESS false) 9
    (World.start { Started := false, ReturnCode := 0 }) (-7) rfl (by decide)

/-- C2. Let the block be mapped. (1) `WrapperMainProcess` is lines 241-271 run
from the world `sentinelWorld`, in which the block was zeroed by the `memset`
(`Started` false, `ReturnCode` 0) and `ReturnCode` then set to -7
(`FBUILD_WRAPPER_CRASHED`); the first operations of the function are the
creation, the `memset`, the write of -7 and only then the spawn, and no other
spawn follows. (2) In every run in which the spawn succeeds, another process
sets `Started` at some time `T` after the zeroing and nobody clears it, the
final-process mutex is free at some later `TryLock` (the `b`-th from now), and
no process writes `ReturnCode` from the write of the sentinel on,
`WrapperMainProcess` returns -7, as soon as enough iterations are observed.
(3) Every value a Final-role process writes into `ReturnCode` is 0, -1 or -2,
so never -7. -/
theorem WrapperMainProcess_crash_sentinel (env : Env) (args : String)
    (options : FBuildOptions) (fuel : Nat) (w : World)
    (envF : Env) (optionsF : FBuildOptions) (fuelF : Nat) (memF : SharedData)
    (hcreate : env.createOk = true)
    (hF : optionsF.m_WrapperMode = .WRAPPER_MODE_FINAL_PROCESS) :
    (WrapperMainProcess env args options fuel w =
        wrapperFromLine241 env args options fuel (sentinelWorld env options w) ∧
      (memsetZero env (SharedMemoryCreate env options.GetSharedMemoryName w)).mem =
        { Started := false, ReturnCode := 0 } ∧
      (sentinelWorld env options w).mem =
        { env.others (w.trace.length + 2) { Started := false, ReturnCode := 0 } with
          ReturnCode := -7 } ∧
      (sentinelWorld env options w).trace =
        w.trace ++ [.smCreate options.GetSharedMemoryName true, .memset,
          .writeReturnCode (-7)] ∧
      ∃ rest : List Event,
        (WrapperMainProcess env args options fuel w).2.trace =
          (sentinelWorld env options w).trace ++
            .spawn options.m_ProgramName (args ++ " -wrapperintermediate")
              options.GetWorkingDir env.spawnOk :: rest ∧
        ∀ e ∈ rest, e.isSpawn = false) ∧
    (∀ T b : Nat,
      env.spawnOk = true →
      w.trace.length + 2 ≤ T →
      (∀ s, (env.others T s).Started = true) →
      (∀ n s, s.Started = true → (env.others n s).Started = true) →
      env.tryLock .finalProcess (w.nTryFinal + b) = true →
      (∀ n s, w.trace.length + 3 ≤ n → (env.others n s).ReturnCode = s.ReturnCode) →
      T < w.trace.length + fuel → b < fuel →
      (WrapperMainProcess env args options fuel w).1 = .exit (-7)) ∧
    FBUILD_WRAPPER_CRASHED = -7 ∧
    (∀ c, Event.writeReturnCode c ∈ (Main envF .OPTIONS_OK optionsF fuelF memF).2.trace →
      (c = 0 ∨ c = -1 ∨ c = -2) ∧ c ≠ -7) := by
  obtain ⟨s1, s2, s3⟩ := sentinelWorld_fields env options w hcreate
  have hrounds1 : ∀ (a : Nat) (e : Event), e ∈ rounds a [.readStarted false, .sleep 1] →
      e.isSpawn = false := by
    intro a e he
    have := mem_rounds he
    simp only [List.mem_cons, List.mem_singleton, List.mem_nil_iff, or_false] at this
    rcases this with rfl | rfl <;> rfl
  have hrounds2 : ∀ (a : Nat) (e : Event),
      e ∈ rounds a [.tryLock .finalProcess false, .sleep 1] → e.isSpawn = false := by
    intro a e he
    have := mem_rounds he
    simp only [List.mem_cons, List.mem_singleton, List.mem_nil_iff, or_false] at this
    rcases this with rfl | rfl <;> rfl
  refine ⟨⟨WrapperMainProcess_from_line241 env args options fuel w hcreate, s1, s2, s3, ?_⟩,
    ?_, rfl, ?_⟩
  · rw [s3]
    rcases WrapperMainProcess_cases env args options fuel w with
      ⟨hc, _⟩ | ⟨_, hs, _, ht⟩ | ⟨_, hs, a, _, ht⟩ | ⟨_, hs, a, b, _, ht⟩ |
      ⟨_, hs, a, b, v, _, _, _, ht⟩
    · rw [hcreate] at hc; cases hc
    · refine ⟨[], ?_, by simp⟩
      rw [ht, hs]; simp
    · refine ⟨[.waitForExit env.childExit] ++ rounds a [.readStarted false, .sleep 1], ?_, ?_⟩
      · rw [ht, hs]; simp [wrapperSetup]
      · intro e he
        simp only [List.mem_append, List.mem_singleton] at he
        rcases he with rfl | he
        · rfl
        · exact hrounds1 a e he
    · refine ⟨[.waitForExit env.childExit] ++ rounds a [.readStarted false, .sleep 1] ++
        [.readStarted true] ++ rounds b [.tryLock .finalProcess false, .sleep 1], ?_, ?_⟩
      · rw [ht, hs]; simp [wrapperSetup]
      · intro e he
        simp only [List.mem_append, List.mem_singleton] at he
        rcases he with ((rfl | he) | rfl) | he
        · rfl
        · exact hrounds1 a e he
        · rfl
        · exact hrounds2 b e he
    · refine ⟨[.waitForExit env.childExit] ++ rounds a [.readStarted false, .sleep 1] ++
        [.readStarted true] ++ rounds b [.tryLock .finalProcess false, .sleep 1] ++
        [.tryLock .finalProcess true, .readReturnCode v], ?_, ?_⟩
      · rw [ht, hs]; simp [wrapperSetup]
      · intro e he
        simp only [List.mem_append, List.mem_singleton, List.mem_cons, List.mem_nil_iff,
          or_false] at he
        rcases he with (((rfl | he) | rfl) | he) | rfl | rfl
        · rfl
        · exact hrounds1 a e he
        · rfl
        · exact hrounds2 b e he
        · rfl
        · rfl
  · intro T b hspawn hT hset hkeep hfree hquiet hfuelT hfuelb
    obtain ⟨st, sn, _, _⟩ := spawnedWorld_fields env args options w hcreate hspawn
    have hlen : (spawnedWorld env args options w).trace.length = w.trace.length + 5 := by
      rw [st]; simp [wrapperSetup]
    have h1 : (waitStarted env fuel (spawnedWorld env args options w)).1 = true := by
      apply waitStarted_leaves env T hset hkeep
      · rcases spawnedWorld_started env args options w T hT hset hkeep with h | h
        · left; rw [hlen]; exact h
        · right; exact h
      · omega
      · rw [hlen]; omega
    have h2 : (waitFinalExit env fuel
        (waitStarted env fuel (spawnedWorld env args options w)).2).1 = true := by
      obtain ⟨_, _, _, hn⟩ := waitStarted_shape env fuel (spawnedWorld env args options w)
      apply waitFinalExit_leaves env b
      · rw [hn, sn]
        exact hfree
      · exact hfuelb
    have hrun := WrapperMainProcess_spawned env args options fuel w hcreate hspawn
    rw [if_pos h1, if_pos h2] at hrun
    rcases WrapperMainProcess_cases env args options fuel w with
      ⟨hc, _⟩ | ⟨_, hs, _⟩ | ⟨_, _, a, ho, _⟩ | ⟨_, _, a, b', ho, _⟩ |
      ⟨_, _, a, b', v, ho, _, hq, _⟩
    · rw [hcreate] at hc; cases hc
    · rw [hspawn] at hs; cases hs
    · rw [hrun] at ho; cases ho
    · rw [hrun] at ho; cases ho
    · rw [ho, hq hquiet]
  · intro c hc
    have := Main_final_writes envF optionsF fuelF memF hF c hc
    refine ⟨this, ?_⟩
    rcases this with h | h | h <;> rw [h] <;> decide

/-- A run to which C2 applies: the block starts with `Started` set and an
arbitrary `ReturnCode`; it is zeroed; another process sets `Started` at time
14; the final-process mutex is free at the second `TryLock`; nobody writes
`ReturnCode`. With 15 iterations observed, `WrapperMainProcess` returns the
sentinel. -/
theorem WrapperMainProcess_crash_sentinel_witness :
    (memsetZero startedLaterEnv (SharedMemoryCreate startedLaterEnv "shm"
      (World.start { Started := true, ReturnCode := 5 }))).mem =
      { Started := false, ReturnCode := 0 } ∧
    (WrapperMainProcess startedLaterEnv "-cache all"
      (sampleOptions .WRAPPER_MODE_MAIN_PROCESS false) 15
      (World.start { Started := true, ReturnCode := 5 })).1 = .exit (-7) :=
  ⟨(WrapperMainProcess_crash_sentinel startedLaterEnv "-cache all"
      (sampleOptions .WRAPPER_MODE_MAIN_PROCESS false) 15
      (World.start { Started := true, ReturnCode := 5 }) quietEnv
      (sampleOptions .WRAPPER_MODE_FINAL_PROCESS false) 1 { Started := false, ReturnCode := -7 }
      rfl rfl).1.2.1,
   (WrapperMainProcess_crash_sentinel startedLaterEnv "-cache all"
      (sampleOptions .WRAPPER_MODE_MAIN_PROCESS false) 15
      (World.start { Started := true, ReturnCode := 5 }) quietEnv
      (sampleOptions .WRAPPER_MODE_FINAL_PROCESS false) 1 { Started := false, ReturnCode := -7 }
      rfl rfl).2.1 14 1 rfl (by decide)
      (by intro s; simp [startedLaterEnv])
      (by
        intro n s hs
        simp only [startedLaterEnv]
        split
        · rfl
        · exact hs)
      rfl
      (by
        intro n s _
        simp only [startedLaterEnv]
        split <;> rfl)
      (by decide) (by decide)⟩

/-- C1. (1) A Final-role run of `Main` that calls `Build` with result `r` (so
it has acquired the final-process mutex, mapped the block and initialized the
build engine) returns 0 when `r` is true and -1 when `r` is false, and, nobody
else writing `ReturnCode`, that is the `ReturnCode` of the block at its exit.
(2) A Main-role run that sees `Started` true and acquires the final-process
mutex has spawned the intermediate process and returns the `ReturnCode` of the
block. (3) So when the block read by the Main-role process holds the
`ReturnCode` the Final-role process left, the Main-role exit code is 0 for
`r` true and -1 for `r` false. -/
theorem Main_round_trip (envF : Env) (optionsF : FBuildOptions) (fuelF : Nat)
    (memF : SharedData) (r : Bool) (envM : Env) (optionsM : FBuildOptions) (fuelM : Nat)
    (memM : SharedData)
    (hF : optionsF.m_WrapperMode = .WRAPPER_MODE_FINAL_PROCESS)
    (hM : optionsM.m_WrapperMode = .WRAPPER_MODE_MAIN_PROCESS) :
    (Event.build optionsF.m_Targets r ∈ (Main envF .OPTIONS_OK optionsF fuelF memF).2.trace →
      (Main envF .OPTIONS_OK optionsF fuelF memF).1 = .exit (if r = true then 0 else -1) ∧
      ((∀ n s, (envF.others n s).ReturnCode = s.ReturnCode) →
        (Main envF .OPTIONS_OK optionsF fuelF memF).2.mem.ReturnCode =
          (if r = true then 0 else -1))) ∧
    (Event.readStarted true ∈ (Main envM .OPTIONS_OK optionsM fuelM memM).2.trace →
      Event.tryLock .finalProcess true ∈ (Main envM .OPTIONS_OK optionsM fuelM memM).2.trace →
      envM.spawnOk = true ∧
      (Main envM .OPTIONS_OK optionsM fuelM memM).1 =
        .exit (Main envM .OPTIONS_OK optionsM fuelM memM).2.mem.ReturnCode) ∧
    (Event.build optionsF.m_Targets r ∈ (Main envF .OPTIONS_OK optionsF fuelF memF).2.trace →
      (∀ n s, (envF.others n s).ReturnCode = s.ReturnCode) →
      Event.readStarted true ∈ (Main envM .OPTIONS_OK optionsM fuelM memM).2.trace →
      Event.tryLock .finalProcess true ∈ (Main envM .OPTIONS_OK optionsM fuelM memM).2.trace →
      (Main envM .OPTIONS_OK optionsM fuelM memM).2.mem.ReturnCode =
        (Main envF .OPTIONS_OK optionsF fuelF memF).2.mem.ReturnCode →
      (Main envM .OPTIONS_OK optionsM fuelM memM).1 = .exit (if r = true then 0 else -1)) := by
  have part1 : Event.build optionsF.m_Targets r ∈
      (Main envF .OPTIONS_OK optionsF fuelF memF).2.trace →
      (Main envF .OPTIONS_OK optionsF fuelF memF).1 = .exit (if r = true then 0 else -1) ∧
      ((∀ n s, (envF.others n s).ReturnCode = s.ReturnCode) →
        (Main envF .OPTIONS_OK optionsF fuelF memF).2.mem.ReturnCode =
          (if r = true then 0 else -1)) := by
    intro hb
    have hbuild : (Event.build optionsF.m_Targets r).isBuildEngineOp = true := rfl
    obtain ⟨a, h | h | h | h⟩ := Main_final_cases envF optionsF fuelF memF hF
    · rw [h.2] at hb
      have := final_startup_kinds optionsF a [] (by simp) _ (by simpa using hb)
      rw [hbuild] at this; cases this
    · rw [h.2] at hb
      have := final_startup_kinds optionsF a _ (by
        intro e he
        simp only [List.mem_cons, List.mem_singleton, List.mem_nil_iff, or_false] at he
        rcases he with rfl | rfl | rfl <;> rfl) _ hb
      rw [hbuild] at this; cases this
    · rw [h.2.2] at hb
      have := final_startup_kinds optionsF a _ (by
        intro e he
        simp only [List.mem_cons, List.mem_singleton, List.mem_nil_iff, or_false] at he
        rcases he with rfl | rfl <;> rfl) _ hb
      rw [hbuild] at this; cases this
    · obtain ⟨_, w, hrun, hw, _⟩ := h
      have hnb : ∀ e ∈ w.trace, e.isBuildEngineOp = false := by
        rw [hw]
        exact final_startup_kinds optionsF a _ (by
          intro e he
          simp only [List.mem_cons, List.mem_singleton, List.mem_nil_iff, or_false] at he
          rcases he with rfl | rfl | rfl <;> rfl)
      rw [hrun] at hb ⊢
      rcases runFBuild_cases envF optionsF true w with
        ⟨_, _, ht, _⟩ | ⟨_, _, _, ht, _⟩ | ⟨_, _, e, res, _, _, hres, ho, ht, hmem⟩
      · rw [ht] at hb
        simp only [List.mem_append, List.mem_singleton, if_true] at hb
        rcases hb with ((hb | hb) | hb) | hb
        · have := hnb _ hb
          rw [hbuild] at this; cases this
        · cases hb
        · cases hb
        · cases hb
      · rw [ht] at hb
        simp only [List.mem_append, List.mem_cons, List.mem_singleton, List.mem_nil_iff,
          or_false] at hb
        rcases hb with hb | hb | hb | hb
        · have := hnb _ hb
          rw [hbuild] at this; cases this
        · cases hb
        · cases hb
        · cases hb
      · rw [ht] at hb
        simp only [List.mem_append, List.mem_cons, List.mem_singleton, List.mem_nil_iff,
          or_false, if_true] at hb
        rcases hb with ((hb | hb | hb) | hb) | hb | hb
        · have := hnb _ hb
          rw [hbuild] at this; cases this
        · cases hb
        · have hr := hres _ _ hb.symm
          subst hr
          exact ⟨ho, fun hq => hmem rfl hq⟩
        · cases hb
        · cases hb
        · cases hb
  refine ⟨part1, fun hs hl => Main_main_returned envM optionsM fuelM memM hM hs hl, ?_⟩
  intro hb hq hs hl hshared
  rw [(Main_main_returned envM optionsM fuelM memM hM hs hl).2, hshared, (part1 hb).2 hq]

/-- Two relays to which C1 applies: the Final-role process builds with result
true, resp. false, while the Main-role process polls; the Main-role process
returns 0, resp. -1. -/
theorem Main_round_trip_witness :
    (Main (relayEnv true) .OPTIONS_OK (sampleOptions .WRAPPER_MODE_MAIN_PROCESS false) 3
      { Started := false, ReturnCode := 0 }).1 = .exit 0 ∧
    (Main (relayEnv false) .OPTIONS_OK (sampleOptions .WRAPPER_MODE_MAIN_PROCESS false) 3
      { Started := false, ReturnCode := 0 }).1 = .exit (-1) :=
  ⟨(Main_round_trip (buildEnv true) (sampleOptions .WRAPPER_MODE_FINAL_PROCESS false) 1
      { Started := false, ReturnCode := -7 } true (relayEnv true)
      (sampleOptions .WRAPPER_MODE_MAIN_PROCESS false) 3 { Started := false, ReturnCode := 0 }
      rfl rfl).2.2 (by decide) (fun _ _ => rfl) (by decide) (by decide) (by decide),
   (Main_round_trip (buildEnv false) (sampleOptions .WRAPPER_MODE_FINAL_PROCESS false) 1
      { Started := false, ReturnCode := -7 } false (relayEnv false)
      (sampleOptions .WRAPPER_MODE_MAIN_PROCESS false) 3 { Started := false, ReturnCode := 0 }
      rfl rfl).2.2 (by decide) (fun _ _ => rfl) (by decide) (by decide) (by decide)⟩

/-! ## Where the code departs from the protocol -/

/-- C5, what the code does. In a Main-role run that acquires the primary mutex at
once, maps the block and spawns the intermediate process, if no process ever
sets `Started` (as when the intermediate process failed to spawn the Final-role
process and exited with -6), `Main` never returns: however many iterations are
observed, it is still polling `Started`. The exit code of the intermediate
process is not looked at. -/
theorem Main_vanishing_final_never_returns (env : Env) (options : FBuildOptions)
    (mem : SharedData)
    (hM : options.m_WrapperMode = .WRAPPER_MODE_MAIN_PROCESS)
    (hlock : env.tryLock .mainProcess 0 = true)
    (hcreate : env.createOk = true)
    (hspawn : env.spawnOk = true)
    (hnever : ∀ n s, (env.others n s).Started = s.Started) :
    ∀ fuel : Nat, (Main env .OPTIONS_OK options fuel mem).1 = .running := by
  intro fuel
  have hne : options.m_WrapperMode ≠ .WRAPPER_MODE_INTERMEDIATE_PROCESS := by simp [hM]
  obtain ⟨c1, _, _, _⟩ := atLine112_counters env options mem
  have hsi : singleInstance env options fuel (World.atLine112 env options mem) =
      (none, (SystemMutex.TryLock env .mainProcess (World.atLine112 env options mem)).2) := by
    simp [singleInstance, hM, SystemMutex.TryLock, c1, hlock]
  rw [Main_from_line112 env options fuel mem hne, hsi]
  simp only [afterSingleInstance, hM, if_true]
  rw [WrapperMainProcess_spawned env _ options fuel _ hcreate hspawn]
  have hst := (spawnedWorld_fields env options.m_Args options
    (SystemMutex.TryLock env .mainProcess (World.atLine112 env options mem)).2
    hcreate hspawn).2.2.2 hnever
  have := waitStarted_stuck env hnever fuel _ hst
  rw [this]
  simp

/-- A run to which the theorem on C5 applies: the intermediate process exits
with -6 and nobody sets `Started`; after 50 polls `Main` has not returned. -/
theorem Main_vanishing_final_never_returns_witness :
    vanishedFinalEnv.childExit = -6 ∧
    (Main vanishedFinalEnv .OPTIONS_OK (sampleOptions .WRAPPER_MODE_MAIN_PROCESS false) 50
      { Started := false, ReturnCode := 0 }).1 = .running :=
  ⟨rfl, Main_vanishing_final_never_returns vanishedFinalEnv
    (sampleOptions .WRAPPER_MODE_MAIN_PROCESS false) { Started := false, ReturnCode := 0 }
    rfl rfl rfl rfl (fun _ _ => rfl) 50⟩

/-- C6, what the code does. A Final-role run of `Main` that displays the target
list has set `Started` and returns 0, but writes nothing into `ReturnCode`: when
nobody else writes it either, the block still holds at exit the `ReturnCode` it
held at the start, that is the sentinel the Main-role process put there. -/
theorem Main_final_target_list_no_result (env : Env) (options : FBuildOptions) (fuel : Nat)
    (mem : SharedData)
    (hF : options.m_WrapperMode = .WRAPPER_MODE_FINAL_PROCESS)
    (hlist : Event.displayTargetList ∈ (Main env .OPTIONS_OK options fuel mem).2.trace) :
    (Main env .OPTIONS_OK options fuel mem).1 = .exit 0 ∧
    Event.writeStarted true ∈ (Main env .OPTIONS_OK options fuel mem).2.trace ∧
    (∀ c, Event.writeReturnCode c ∉ (Main env .OPTIONS_OK options fuel mem).2.trace) ∧
    ((∀ n s, (env.others n s).ReturnCode = s.ReturnCode) →
      (Main env .OPTIONS_OK options fuel mem).2.mem.ReturnCode = mem.ReturnCode) := by
  have hl : Event.displayTargetList.isBuildEngineOp = true := rfl
  obtain ⟨a, h | h | h | h⟩ := Main_final_cases env options fuel mem hF
  · rw [h.2] at hlist
    have := final_startup_kinds options a [] (by simp) _ (by simpa using hlist)
    rw [hl] at this; cases this
  · rw [h.2] at hlist
    have := final_startup_kinds options a _ (by
      intro e he
      simp only [List.mem_cons, List.mem_singleton, List.mem_nil_iff, or_false] at he
      rcases he with rfl | rfl | rfl <;> rfl) _ hlist
    rw [hl] at this; cases this
  · rw [h.2.2] at hlist
    have := final_startup_kinds options a _ (by
      intro e he
      simp only [List.mem_cons, List.mem_singleton, List.mem_nil_iff, or_false] at he
      rcases he with rfl | rfl <;> rfl) _ hlist
    rw [hl] at this; cases this
  · obtain ⟨_, w, hrun, hw, hwm⟩ := h
    have hnb : ∀ e ∈ w.trace, e.isBuildEngineOp = false := by
      rw [hw]
      exact final_startup_kinds options a _ (by
        intro e he
        simp only [List.mem_cons, List.mem_singleton, List.mem_nil_iff, or_false] at he
        rcases he with rfl | rfl | rfl <;> rfl)
    have hnw : ∀ c, Event.writeReturnCode c ∉ w.trace := by
      intro c hc
      rw [hw] at hc
      simp only [List.mem_append] at hc
      rcases hc with (hc | hc) | hc
      · have := (mem_preamble_kinds options _ hc).1
        simp [Event.isSegmentOp] at this
      · have := (mem_finalWaitRound_kinds 1000 _ (mem_rounds hc)).1
        simp [Event.isSegmentOp] at this
      · simp at hc
    rw [hrun] at hlist ⊢
    rcases runFBuild_cases env options true w with
      ⟨_, _, ht, _⟩ | ⟨_, _, ho, ht, hmem⟩ | ⟨_, _, e, res, _, hne, _, _, ht, _⟩
    · rw [ht] at hlist
      simp only [List.mem_append, List.mem_singleton, if_true] at hlist
      rcases hlist with ((hb | hb) | hb) | hb
      · have := hnb _ hb
        rw [hl] at this; cases this
      · cases hb
      · cases hb
      · cases hb
    · refine ⟨ho, ?_, ?_, ?_⟩
      · rw [ht, hw]; simp
      · intro c hc
        rw [ht] at hc
        simp only [List.mem_append, List.mem_cons, List.mem_singleton, List.mem_nil_iff,
          or_false] at hc
        rcases hc with hc | hc | hc | hc
        · exact hnw c hc
        · cases hc
        · cases hc
        · cases hc
      · intro hq
        rw [hmem hq, hwm hq]
    · rw [ht] at hlist
      simp only [List.mem_append, List.mem_cons, List.mem_singleton, List.mem_nil_iff,
        or_false, if_true] at hlist
      rcases hlist with ((hb | hb | hb) | hb) | hb | hb
      · have := hnb _ hb
        rw [hl] at this; cases this
      · cases hb
      · exact absurd hb.symm hne
      · cases hb
      · cases hb
      · cases hb

/-- The failing run for C6: the Final-role process is asked for the target list,
starts with the sentinel -7 in the block, returns 0 and leaves -7 there. -/
theorem Main_final_target_list_no_result_witness :
    (Main quietEnv .OPTIONS_OK showTargetsOptions 1 { Started := false, ReturnCode := -7 }).1 =
      .exit 0 ∧
    (Main quietEnv .OPTIONS_OK showTargetsOptions 1
      { Started := false, ReturnCode := -7 }).2.mem = { Started := true, ReturnCode := -7 } :=
  ⟨(Main_final_target_list_no_result quietEnv showTargetsOptions 1
      { Started := false, ReturnCode := -7 } rfl (by decide)).1, by decide⟩

end FBuildApp
